import Mathlib

/-!
# Breakout demo and asset hit-testing: a shallow embedding

Embedding of `demo/breakout.c` and of `click_in_button` from `library/asset.c`.

* C `double` values are rationals (exact arithmetic); the mass sentinel `INFINITY`
  is a separate constructor of `mass_t`.
* A `body_t *` is an index into the list of all bodies allocated so far (`scene_t.mem`);
  the scene's own body list holds such pointers, as the C list does.
* A handler function pointer is a tag of `handler_t`; the `void *aux` of an entry is
  `NULL` or the pointer to the (single) game state.
* Colours only reach the renderer and are left out of `body_t`.
-/

namespace Breakout

/-! ## Vectors and polygons -/

/-- A 2D vector, `vector_t` of the engine. -/
structure vector_t where
  x : ℚ
  y : ℚ
deriving DecidableEq, Repr

/-- The zero vector `VEC_ZERO`. -/
def VEC_ZERO : vector_t := ⟨0, 0⟩

/-- Component-wise sum `vec_add`. -/
def vec_add (a b : vector_t) : vector_t := ⟨a.x + b.x, a.y + b.y⟩

/-- Component-wise difference `vec_subtract`. -/
def vec_subtract (a b : vector_t) : vector_t := ⟨a.x - b.x, a.y - b.y⟩

/-- Scaling `vec_multiply`. -/
def vec_multiply (k : ℚ) (a : vector_t) : vector_t := ⟨k * a.x, k * a.y⟩

/-- Dot product `vec_dot`. -/
def vec_dot (a b : vector_t) : ℚ := a.x * b.x + a.y * b.y

/-- The function `make_rectangle` of breakout.c: the four corners, in the order they are added. -/
def make_rectangle (center : vector_t) (width height : ℚ) : List vector_t :=
  let p1 : vector_t := ⟨center.x - width / 2, center.y - height / 2⟩
  let p2 : vector_t := ⟨center.x + width / 2, center.y - height / 2⟩
  let p3 : vector_t := ⟨center.x + width / 2, center.y + height / 2⟩
  let p4 : vector_t := ⟨center.x - width / 2, center.y + height / 2⟩
  [p1, p2, p3, p4]

/-- Sum of the cross products of consecutive vertices, closing the polygon with `first`. -/
def shoelace_sum (first : vector_t) : List vector_t → ℚ
  | [] => 0
  | [p] => p.x * first.y - first.x * p.y
  | p :: q :: rest => (p.x * q.y - q.x * p.y) + shoelace_sum first (q :: rest)

/-- Signed shoelace area of a polygon in insertion order: positive when the vertices
run counter-clockwise. -/
def signed_area : List vector_t → ℚ
  | [] => 0
  | p :: rest => shoelace_sum p (p :: rest) / 2

/-- Mean of the vertices of a polygon. -/
def vertex_mean (ps : List vector_t) : vector_t :=
  ⟨(ps.map (·.x)).sum / ps.length, (ps.map (·.y)).sum / ps.length⟩

/-- Difference between the largest and the smallest of a list of coordinates. -/
def spread : List ℚ → ℚ
  | [] => 0
  | a :: rest => rest.foldl max a - rest.foldl min a

/-- Horizontal extent of a polygon. -/
def extent_x (ps : List vector_t) : ℚ := spread (ps.map (·.x))

/-- Vertical extent of a polygon. -/
def extent_y (ps : List vector_t) : ℚ := spread (ps.map (·.y))

/-! ## Asset hit test (`library/asset.c`) -/

/-- Smallest value of a C `int`. -/
def INT_MIN : Int := -2147483648

/-- Largest value of a C `int`. -/
def INT_MAX : Int := 2147483647

/-- Addition of two C `int`s, wrapping to 32 bits in two's complement. -/
def int_add (a b : Int) : Int := (a + b + 2147483648) % 4294967296 - 2147483648

/-- The SDL rectangle: four `int` fields. -/
structure SDL_Rect where
  x : Int
  y : Int
  w : Int
  h : Int
deriving DecidableEq, Repr

/-- Kinds of asset. -/
inductive asset_type_t where
  | ASSET_IMAGE
  | ASSET_FONT
  | ASSET_BUTTON
deriving DecidableEq, Repr

/-- The base `asset_t` of asset.c. -/
structure asset_t where
  type : asset_type_t
  bounding_box : SDL_Rect
deriving DecidableEq, Repr

/-- The function `click_in_button` of asset.c. The `int` sums are computed in `int`
arithmetic and then compared with the `double` click coordinates; every 32-bit `int` is
exactly a `double`. (For a NaN or infinite coordinate, which no rational stands for, at
least one of the four comparisons is false in C and the answer is false.) -/
def click_in_button (button : asset_t) (x y : ℚ) : Bool :=
  let box := button.bounding_box
  if x < ((int_add box.x box.w : Int) : ℚ) ∧ x > (box.x : ℚ) ∧
      y < ((int_add box.y box.h : Int) : ℚ) ∧ y > (box.y : ℚ) then
    true
  else
    false

/-- Neither `x + w` nor `y + h` leaves the range of `int`. -/
def sums_in_range (box : SDL_Rect) : Prop :=
  INT_MIN ≤ box.x + box.w ∧ box.x + box.w ≤ INT_MAX ∧
  INT_MIN ≤ box.y + box.h ∧ box.y + box.h ≤ INT_MAX

/-! ## Bodies (`body.c` is not among the sources) -/

/-- The body kinds of breakout.c, stored behind each body's `info` pointer. -/
inductive body_type_t where
  | BALL
  | WALL
  | BRICK
  | GROUND
deriving DecidableEq, Repr

/-- A mass: a finite `double`, or the sentinel `INFINITY`. -/
inductive mass_t where
  | finite (m : ℚ)
  | INFINITY
deriving DecidableEq, Repr

/-- A rigid body: shape, mass, cached centroid, velocity, rotation, accumulated force and
impulse, the kind behind its `info` pointer, and the removal flag. -/
structure body_t where
  shape : List vector_t
  mass : mass_t
  centroid : vector_t
  velocity : vector_t
  rotation : ℚ
  force : vector_t
  impulse : vector_t
  info : body_type_t
  removed : Bool
deriving DecidableEq, Repr

/-- Sums of the area-weighted centroid formula, closing the polygon with `first`. -/
def centroid_sums (first : vector_t) : List vector_t → ℚ × ℚ
  | [] => (0, 0)
  | [p] =>
    ((p.x + first.x) * (p.x * first.y - first.x * p.y),
     (p.y + first.y) * (p.x * first.y - first.x * p.y))
  | p :: q :: rest =>
    let s := centroid_sums first (q :: rest)
    ((p.x + q.x) * (p.x * q.y - q.x * p.y) + s.1, (p.y + q.y) * (p.x * q.y - q.x * p.y) + s.2)

/-- Modelled from the spec: `polygon_centroid` (polygon.c is not among the sources), the
geometric centre of a polygon, by the area-weighted formula. -/
def polygon_centroid : List vector_t → vector_t
  | [] => VEC_ZERO
  | p :: rest =>
    let s := centroid_sums p (p :: rest)
    let a := signed_area (p :: rest)
    ⟨s.1 / (6 * a), s.2 / (6 * a)⟩

/-- Apply `f` to the body a pointer refers to; a pointer to no body changes nothing. -/
def mem_update : List body_t → Nat → (body_t → body_t) → List body_t
  | [], _, _ => []
  | b :: rest, 0, f => f b :: rest
  | b :: rest, p + 1, f => b :: mem_update rest p f

/-- Modelled from the spec: `body_init_with_info` (body.c is not among the sources) allocates
a body at rest with the given shape, mass and kind, its centroid derived from the polygon,
nothing accumulated and the removal flag clear; it returns the new memory and the pointer. -/
def body_init_with_info (mem : List body_t) (shape : List vector_t) (mass : mass_t)
    (info : body_type_t) : List body_t × Nat :=
  (mem ++ [{ shape := shape, mass := mass, centroid := polygon_centroid shape,
             velocity := VEC_ZERO, rotation := 0, force := VEC_ZERO, impulse := VEC_ZERO,
             info := info, removed := false }], mem.length)

/-- The function `get_type` of breakout.c: the kind stored behind the `info` pointer that
`body_get_info` returns; a pointer to no body has none. -/
def get_type (mem : List body_t) (body : Nat) : Option body_type_t :=
  (mem[body]?).map (·.info)

/-- Modelled from the spec: `body_is_removed` reads the removal flag. -/
def body_is_removed (mem : List body_t) (body : Nat) : Option Bool :=
  (mem[body]?).map (·.removed)

/-- Modelled from the spec: `body_get_velocity`. -/
def body_get_velocity (mem : List body_t) (body : Nat) : Option vector_t :=
  (mem[body]?).map (·.velocity)

/-- Modelled from the spec: `body_get_centroid`. -/
def body_get_centroid (mem : List body_t) (body : Nat) : Option vector_t :=
  (mem[body]?).map (·.centroid)

/-- Modelled from the spec: `body_get_mass`. -/
def body_get_mass (mem : List body_t) (body : Nat) : Option mass_t :=
  (mem[body]?).map (·.mass)

/-- Modelled from the spec: `body_remove` (body.c is not among the sources) sets the removal
flag and nothing else; the body stays addressable. -/
def body_remove (mem : List body_t) (body : Nat) : List body_t :=
  mem_update mem body (fun b => { b with removed := true })

/-- Modelled from the spec: `body_set_velocity` overwrites the velocity. -/
def body_set_velocity (mem : List body_t) (body : Nat) (v : vector_t) : List body_t :=
  mem_update mem body (fun b => { b with velocity := v })

/-- Modelled from the spec: `body_set_centroid` translates the polygon rigidly and updates
the cached centroid. -/
def body_set_centroid (mem : List body_t) (body : Nat) (c : vector_t) : List body_t :=
  mem_update mem body (fun b =>
    { b with shape := b.shape.map (vec_add (vec_subtract c b.centroid)), centroid := c })

/-- Modelled from the spec: `body_reset` clears accumulated force, impulse and rotation
bookkeeping without altering position or velocity. -/
def body_reset (mem : List body_t) (body : Nat) : List body_t :=
  mem_update mem body (fun b =>
    { b with force := VEC_ZERO, impulse := VEC_ZERO, rotation := 0 })

/-- Modelled from the spec: `body_add_impulse` accumulates an impulse on the body. -/
def body_add_impulse (mem : List body_t) (body : Nat) (j : vector_t) : List body_t :=
  mem_update mem body (fun b => { b with impulse := vec_add b.impulse j })

/-- Inverse mass, zero for an infinite mass. -/
def mass_inv : mass_t → ℚ
  | mass_t.finite m => 1 / m
  | mass_t.INFINITY => 0

/-- Modelled from the spec: one integration step of a body (section 4.5, phase 2): forces and
impulses change the velocity of a finite-mass body only, the centroid moves by
`velocity * dt`, and the accumulators are cleared. -/
def body_tick (b : body_t) (dt : ℚ) : body_t :=
  let v : vector_t :=
    match b.mass with
    | mass_t.finite m =>
      vec_add (vec_add b.velocity (vec_multiply (dt / m) b.force)) (vec_multiply (1 / m) b.impulse)
    | mass_t.INFINITY => b.velocity
  let d := vec_multiply dt v
  { b with velocity := v, shape := b.shape.map (vec_add d), centroid := vec_add b.centroid d,
           force := VEC_ZERO, impulse := VEC_ZERO }

/-! ## Scene and registry (`scene.c`, `forces.c` are not among the sources) -/

/-- The collision handlers a registry entry can point to. -/
inductive handler_t where
  | physics_collision_handler
  | breakout_collision_handler
  | reset_game
deriving DecidableEq, Repr

/-- The auxiliary pointer of an entry: `NULL`, or the pointer to the game state. -/
inductive aux_t where
  | NULL
  | STATE
deriving DecidableEq, Repr

/-- A registry entry made by `create_collision`: the pair of bodies, the handler, its
auxiliary pointer and the force constant. -/
structure collision_t where
  body1 : Nat
  body2 : Nat
  handler : handler_t
  aux : aux_t
  force_const : ℚ
deriving DecidableEq, Repr

/-- The scene: its body list (pointers, in insertion order) and its registry entries
(in registration order). -/
structure scene_t where
  bodies : List Nat
  force_creators : List collision_t
deriving DecidableEq, Repr

/-- Modelled from the spec: `scene_init`, the empty scene. -/
def scene_init : scene_t := { bodies := [], force_creators := [] }

/-- Modelled from the spec: `scene_bodies`, the number of bodies in the scene. -/
def scene_bodies (scene : scene_t) : Nat := scene.bodies.length

/-- Modelled from the spec: `scene_get_body`, the body at an index of the scene's list. -/
def scene_get_body (scene : scene_t) (i : Nat) : Option Nat := scene.bodies[i]?

/-- Modelled from the spec: `scene_add_body` appends the body to the scene's list. -/
def scene_add_body (scene : scene_t) (body : Nat) : scene_t :=
  { scene with bodies := scene.bodies ++ [body] }

/-- Modelled from the spec: `create_collision` (forces.c is not among the sources) registers
one entry for the pair with the given handler, auxiliary pointer and force constant. -/
def create_collision (scene : scene_t) (body1 body2 : Nat) (handler : handler_t)
    (aux : aux_t) (force_const : ℚ) : scene_t :=
  { scene with force_creators := scene.force_creators ++
      [{ body1 := body1, body2 := body2, handler := handler, aux := aux,
         force_const := force_const }] }

/-- Modelled from the spec: `create_physics_collision`, the convenience registration of the
built-in physics handler with an elasticity. -/
def create_physics_collision (scene : scene_t) (body1 body2 : Nat) (elasticity : ℚ) : scene_t :=
  create_collision scene body1 body2 handler_t.physics_collision_handler aux_t.NULL elasticity

/-- Modelled from the spec: `physics_collision_handler` (section 4.4). Nothing happens when
both masses are infinite or the bodies are separating along the axis; otherwise the impulse
`reduced_mass * (1 + elasticity) * (relative velocity along the axis)` is added to body1 and
its opposite to body2. -/
def physics_collision_handler (mem : List body_t) (body1 body2 : Nat) (axis : vector_t)
    (_aux : aux_t) (force_const : ℚ) : List body_t :=
  match mem[body1]?, mem[body2]? with
  | some b1, some b2 =>
    let inv := mass_inv b1.mass + mass_inv b2.mass
    let rel := vec_dot (vec_subtract b2.velocity b1.velocity) axis
    if inv = 0 ∨ 0 ≤ rel then mem
    else
      let impulse := (1 / inv) * (1 + force_const) * rel
      body_add_impulse (body_add_impulse mem body1 (vec_multiply impulse axis))
        body2 (vec_multiply (-impulse) axis)
  | _, _ => mem

/-! ## The game (`demo/breakout.c`) -/

/-- Size of the window. -/
def WINDOW : vector_t := ⟨1000, 500⟩

/-- Radius of the ball. -/
def BALL_RADIUS : ℚ := 15

/-- Mass of the ball. -/
def BALL_MASS : mass_t := mass_t.finite 5

/-- Velocity of the ball at the start and after a reset. -/
def BALL_INIT_VEL : vector_t := ⟨-500, 400⟩

/-- Position of the ball at the start and after a reset. -/
def BALL_INIT_POS : vector_t := ⟨500, 70⟩

/-- Elasticity of every collision the game registers. -/
def ELASTICITY : ℚ := 1

/-- Width of the paddle. -/
def RECTANGLE_WIDTH : ℚ := 98

/-- Height of a brick. -/
def RECTANGLE_HEIGHT : ℚ := 40

/-- Lower-left corner of the window. -/
def MIN : vector_t := ⟨0, 0⟩

/-- Upper-right corner of the window. -/
def MAX : vector_t := ⟨1000, 500⟩

/-- Speed of the paddle when a key has just been pressed. -/
def resting_speed : ℚ := 300

/-- Acceleration of the paddle while a key is held. -/
def ACCEL : ℚ := 100

/-- Number of columns of the brick grid. -/
def BRICKS_IN_ROW : Nat := 10

/-- Number of rows of the brick grid. -/
def ROWS : Nat := 3

/-- Height of the centre of the top row. -/
def BRICK_INIT_Y : ℚ := 475

/-- Gap between neighbouring bricks. -/
def BRICK_OFFSET : ℚ := 3

/-- Thickness of the walls. -/
def WALL_DIM : ℚ := 1

/-- Height of the paddle. -/
def USER_HEIGHT : ℚ := 25

/-- Position of the paddle at the start. -/
def USER_INIT_POS : vector_t := ⟨500, 25⟩

/-- Mass of the paddle. -/
def USER_MASS : mass_t := mass_t.INFINITY

/-- Grid cell of the first stone: `x` is compared with the row `i`, `y` with the column `j`. -/
def FIRST_STONE : vector_t := ⟨1, 7⟩

/-- Grid cell of the second stone. -/
def SECOND_STONE : vector_t := ⟨2, 2⟩

/-- The game state: `struct state` of breakout.c, together with the memory holding every
body allocated so far (a `body_t *` is an index into `mem`). -/
structure state_t where
  mem : List body_t
  scene : scene_t
  time_pressed : ℚ
  ball : Nat
  user : Nat
deriving DecidableEq, Repr

/-- Body of the inner loop of `add_bricks`: the box of column `j`, row `i`. -/
def add_brick (state : state_t) (j i : Nat) : state_t :=
  let rect_width : ℚ := MAX.x / BRICKS_IN_ROW
  let x : ℚ := rect_width / 2 + j * (rect_width + BRICK_OFFSET)
  let y : ℚ := BRICK_INIT_Y - i * (RECTANGLE_HEIGHT + BRICK_OFFSET)
  let rect := make_rectangle ⟨x, y⟩ rect_width RECTANGLE_HEIGHT
  let box :=
    if ((i : ℚ) = FIRST_STONE.x ∧ (j : ℚ) = FIRST_STONE.y) ∨
        ((i : ℚ) = SECOND_STONE.x ∧ (j : ℚ) = SECOND_STONE.y) then
      body_init_with_info state.mem rect mass_t.INFINITY body_type_t.WALL
    else
      body_init_with_info state.mem rect mass_t.INFINITY body_type_t.BRICK
  { state with mem := box.1, scene := scene_add_body state.scene box.2 }

/-- The function `add_bricks` of breakout.c: columns `j` outside, rows `i` inside. -/
def add_bricks (state : state_t) : state_t :=
  (List.range BRICKS_IN_ROW).foldl
    (fun s j => (List.range ROWS).foldl (fun s i => add_brick s j i) s) state

/-- The function `add_walls` of breakout.c: two side walls, the ceiling and the ground. -/
def add_walls (state : state_t) : state_t :=
  let wall1_shape := make_rectangle ⟨MAX.x, MAX.y / 2⟩ WALL_DIM MAX.y
  let wall1 := body_init_with_info state.mem wall1_shape mass_t.INFINITY body_type_t.WALL
  let wall2_shape := make_rectangle ⟨0, MAX.y / 2⟩ WALL_DIM MAX.y
  let wall2 := body_init_with_info wall1.1 wall2_shape mass_t.INFINITY body_type_t.WALL
  let ceiling_shape := make_rectangle ⟨MAX.x / 2, MAX.y⟩ MAX.x WALL_DIM
  let ceiling := body_init_with_info wall2.1 ceiling_shape mass_t.INFINITY body_type_t.WALL
  let ground_shape := make_rectangle ⟨MAX.x / 2, 0⟩ MAX.x WALL_DIM
  let ground := body_init_with_info ceiling.1 ground_shape mass_t.INFINITY body_type_t.GROUND
  { state with
    mem := ground.1,
    scene := scene_add_body (scene_add_body (scene_add_body (scene_add_body state.scene wall1.2)
      wall2.2) ceiling.2) ground.2 }

/-- The function `add_ball` of breakout.c. The polygon of `make_circle`, whose vertices are
computed with `cos` and `sin`, is the parameter `ball_shape`. -/
def add_ball (ball_shape : List vector_t) (state : state_t) : state_t :=
  let ball_body := body_init_with_info state.mem ball_shape BALL_MASS body_type_t.BALL
  let mem := body_set_velocity ball_body.1 ball_body.2 BALL_INIT_VEL
  { state with mem := mem, ball := ball_body.2, scene := scene_add_body state.scene ball_body.2 }

/-- The function `add_user` of breakout.c: the paddle, tagged `WALL`. -/
def add_user (state : state_t) : state_t :=
  let user_shape := make_rectangle USER_INIT_POS RECTANGLE_WIDTH USER_HEIGHT
  let rect_body := body_init_with_info state.mem user_shape USER_MASS body_type_t.WALL
  let mem := body_set_velocity rect_body.1 rect_body.2 VEC_ZERO
  { state with mem := mem, user := rect_body.2, scene := scene_add_body state.scene rect_body.2 }

/-- The function `breakout_collision_handler` of breakout.c: the physics handler, then
`body_remove(body2)`. -/
def breakout_collision_handler (mem : List body_t) (body1 body2 : Nat) (axis : vector_t)
    (aux : aux_t) (force_const : ℚ) : List body_t :=
  body_remove (physics_collision_handler mem body1 body2 axis aux force_const) body2

/-- The function `create_breakout_collision` of breakout.c. The parameter `elasticity` is
not used: the entry is registered with the constant `ELASTICITY`. -/
def create_breakout_collision (scene : scene_t) (body1 body2 : Nat) (_elasticity : ℚ) :
    scene_t :=
  create_collision scene body1 body2 handler_t.breakout_collision_handler aux_t.NULL ELASTICITY

/-- The loop `for (size_t i = 0; i < scene_bodies(scene); i++)` over
`scene_get_body(scene, i)`, with `F` as its body; each iteration reads the scene as the
previous one left it. No loop body of breakout.c adds or drops a body of the scene (lemmas
`remove_brick_bodies`, `add_brick_collision_bodies`, `add_force_creator_bodies`), so the bound
`scene_bodies(scene)` is the same at every test and is taken at entry. -/
def for_each_body (state : state_t) (F : state_t → Nat → state_t) : state_t :=
  (List.range (scene_bodies state.scene)).foldl
    (fun s i =>
      match scene_get_body s.scene i with
      | some body => F s body
      | none => s)
    state

/-- Body of the first loop of `reset_game`: a body of kind `BRICK` is removed. -/
def remove_brick (s : state_t) (body : Nat) : state_t :=
  if get_type s.mem body = some body_type_t.BRICK then
    { s with mem := body_remove s.mem body }
  else s

/-- Body of the last loop of `reset_game`: a destructive collision between the ball and a
body of kind `BRICK`. -/
def add_brick_collision (s : state_t) (body : Nat) : state_t :=
  if get_type s.mem body = some body_type_t.BRICK then
    { s with scene := create_breakout_collision s.scene s.ball body ELASTICITY }
  else s

/-- The function `reset_game` of breakout.c. The game state is reached through `aux`; with a
`NULL` aux the C code dereferences a null pointer, and the model leaves the state as it is. -/
def reset_game (state : state_t) (_body1 _body2 : Nat) (_axis : vector_t) (aux : aux_t)
    (_force_const : ℚ) : state_t :=
  match aux with
  | aux_t.NULL => state
  | aux_t.STATE =>
    let s1 := for_each_body state remove_brick
    let s2 := add_bricks s1
    let s3 := { s2 with mem := body_set_velocity s2.mem s2.ball BALL_INIT_VEL }
    let s4 := { s3 with mem := body_set_centroid s3.mem s3.ball BALL_INIT_POS }
    let s5 := { s4 with mem := body_reset s4.mem s4.ball }
    for_each_body s5 add_brick_collision

/-- Body of the loop of `add_force_creators`: the `switch` on the kind of the body. -/
def add_force_creator (s : state_t) (body : Nat) : state_t :=
  match get_type s.mem body with
  | some body_type_t.BRICK =>
    { s with scene := create_breakout_collision s.scene s.ball body ELASTICITY }
  | some body_type_t.WALL =>
    { s with scene := create_physics_collision s.scene s.ball body ELASTICITY }
  | some body_type_t.GROUND =>
    { s with scene := (create_collision s.scene s.ball body handler_t.reset_game
        aux_t.STATE ELASTICITY) }
  | _ => s

/-- The function `add_force_creators` of breakout.c. -/
def add_force_creators (state : state_t) : state_t :=
  for_each_body state add_force_creator

/-- The function `emscripten_init` of breakout.c (window set-up and key registration are
rendering-side). `time_pressed` is left uninitialised by the C code and never read. -/
def emscripten_init (ball_shape : List vector_t) : state_t :=
  let state : state_t :=
    { mem := [], scene := scene_init, time_pressed := 0, ball := 0, user := 0 }
  add_force_creators (add_walls (add_user (add_bricks (add_ball ball_shape state))))

/-- The function `user_wrap_edges` of breakout.c, applied to a body pointer. -/
def user_wrap_edges (mem : List body_t) (body : Nat) : List body_t :=
  match body_get_centroid mem body with
  | some centroid =>
    if centroid.x - RECTANGLE_WIDTH / 2 > MAX.x then
      body_set_centroid mem body ⟨MIN.x, centroid.y⟩
    else if centroid.x + RECTANGLE_WIDTH / 2 < MIN.x then
      body_set_centroid mem body ⟨MAX.x, centroid.y⟩
    else mem
  | none => mem

/-- Key event kinds of the window layer. -/
inductive key_event_type_t where
  | KEY_PRESSED
  | KEY_RELEASED
deriving DecidableEq, Repr

/-- The keys `on_key` tells apart: the two arrows it reacts to, and any other key. -/
inductive key_t where
  | LEFT_ARROW
  | RIGHT_ARROW
  | other
deriving DecidableEq, Repr

/-- The function `on_key` of breakout.c. -/
def on_key (key : key_t) (type : key_event_type_t) (held_time : ℚ) (state : state_t) :
    state_t :=
  match type with
  | key_event_type_t.KEY_PRESSED =>
    match key with
    | key_t.LEFT_ARROW =>
      { state with mem := (body_set_velocity state.mem state.user
          ⟨-resting_speed - ACCEL * held_time, VEC_ZERO.y⟩) }
    | key_t.RIGHT_ARROW =>
      { state with mem := (body_set_velocity state.mem state.user
          ⟨resting_speed + ACCEL * held_time, VEC_ZERO.y⟩) }
    | key_t.other => state
  | key_event_type_t.KEY_RELEASED =>
    { state with mem := body_set_velocity state.mem state.user VEC_ZERO }

/-! ## One frame (`scene_tick` is not among the sources) -/

/-- The handler of an entry, called on its two bodies with a collision axis. -/
def run_handler (state : state_t) (e : collision_t) (axis : vector_t) : state_t :=
  match e.handler with
  | handler_t.physics_collision_handler =>
    { state with mem := (physics_collision_handler state.mem e.body1 e.body2 axis e.aux
        e.force_const) }
  | handler_t.breakout_collision_handler =>
    { state with mem := (breakout_collision_handler state.mem e.body1 e.body2 axis e.aux
        e.force_const) }
  | handler_t.reset_game => reset_game state e.body1 e.body2 axis e.aux e.force_const

/-- An entry is valid while both bodies it references are un-removed. -/
def entry_valid (mem : List body_t) (e : collision_t) : Bool :=
  body_is_removed mem e.body1 = some false ∧ body_is_removed mem e.body2 = some false

/-- Modelled from the spec: phase 1 of a scene step for the entry at index `i`, for which
collision detection reports the axis `axis`: the handler is invoked unless the entry
references a removed body. -/
def fire (state : state_t) (i : Nat) (axis : vector_t) : state_t :=
  match state.scene.force_creators[i]? with
  | some e => if entry_valid state.mem e then run_handler state e axis else state
  | none => state

/-- Modelled from the spec: phase 2 of a scene step, the integration of every non-removed
body of the scene. -/
def scene_integrate (state : state_t) (dt : ℚ) : state_t :=
  { state with mem := (state.scene.bodies.foldl
      (fun m body =>
        if body_is_removed m body = some false then mem_update m body (fun b => body_tick b dt)
        else m)
      state.mem) }

/-- Modelled from the spec: phase 3 of a scene step, dropping from the scene every body
flagged removed and every entry that references one. -/
def scene_purge (state : state_t) : state_t :=
  { state with scene :=
      { bodies := (state.scene.bodies.filter
          (fun body => body_is_removed state.mem body != some true)),
        force_creators := (state.scene.force_creators.filter
          (fun e => body_is_removed state.mem e.body1 != some true &&
                    body_is_removed state.mem e.body2 != some true)) } }

/-- Modelled from the spec: `scene_tick` (section 4.5). Collision detection works on
normalised edge normals; its outcome is the parameter `collisions`, the entries found
overlapping during the step, each with its axis, in the order their handlers run. -/
def scene_tick (state : state_t) (collisions : List (Nat × vector_t)) (dt : ℚ) : state_t :=
  scene_purge (scene_integrate (collisions.foldl (fun s c => fire s c.1 c.2) state) dt)

/-- The function `emscripten_main` of breakout.c without its rendering calls; `dt` is
`time_since_last_tick()`. -/
def emscripten_main (state : state_t) (collisions : List (Nat × vector_t)) (dt : ℚ) :
    state_t :=
  scene_tick { state with mem := user_wrap_edges state.mem state.user } collisions dt

/-- What can happen to a running game: a frame, or a key event. -/
inductive event_t where
  | frame (collisions : List (Nat × vector_t)) (dt : ℚ)
  | key (key : key_t) (type : key_event_type_t) (held_time : ℚ)

/-- One event applied to the game state. -/
def step (state : state_t) : event_t → state_t
  | event_t.frame collisions dt => emscripten_main state collisions dt
  | event_t.key key type held_time => on_key key type held_time state

/-- A sequence of events applied to the game state, first to last. -/
def run (state : state_t) (events : List event_t) : state_t :=
  events.foldl step state

/-! ## Auxiliary definitions for the statements -/

/-- The body allocated by `add_brick` for column `j`, row `i`. -/
def box_body (j i : Nat) : body_t :=
  let rect_width : ℚ := MAX.x / BRICKS_IN_ROW
  let rect := make_rectangle
    ⟨rect_width / 2 + j * (rect_width + BRICK_OFFSET),
     BRICK_INIT_Y - i * (RECTANGLE_HEIGHT + BRICK_OFFSET)⟩ rect_width RECTANGLE_HEIGHT
  { shape := rect, mass := mass_t.INFINITY, centroid := polygon_centroid rect,
    velocity := VEC_ZERO, rotation := 0, force := VEC_ZERO, impulse := VEC_ZERO,
    info := if (i = 1 ∧ j = 7) ∨ (i = 2 ∧ j = 2) then body_type_t.WALL else body_type_t.BRICK,
    removed := false }

/-- The thirty bodies one call of `add_bricks` allocates, in allocation order. -/
def BRICK_BODIES : List body_t :=
  (List.range BRICKS_IN_ROW).flatMap (fun j => (List.range ROWS).map (box_body j))

/-- The state after allocating the bodies `bs` and adding them to the scene. -/
def push_all (state : state_t) (bs : List body_t) : state_t :=
  { state with
    mem := state.mem ++ bs,
    scene := { state.scene with
      bodies := state.scene.bodies ++ List.range' state.mem.length bs.length } }

/-- The entry `add_force_creators` registers for a body, if any. -/
def creator_for (mem : List body_t) (ball body : Nat) : Option collision_t :=
  match get_type mem body with
  | some body_type_t.BRICK =>
    some ⟨ball, body, handler_t.breakout_collision_handler, aux_t.NULL, 1⟩
  | some body_type_t.WALL =>
    some ⟨ball, body, handler_t.physics_collision_handler, aux_t.NULL, 1⟩
  | some body_type_t.GROUND =>
    some ⟨ball, body, handler_t.reset_game, aux_t.STATE, 1⟩
  | _ => none

/-- The body `add_ball` allocates, with its velocity set. -/
def ball_body (ball_shape : List vector_t) : body_t :=
  { shape := ball_shape, mass := BALL_MASS, centroid := polygon_centroid ball_shape,
    velocity := BALL_INIT_VEL, rotation := 0, force := VEC_ZERO, impulse := VEC_ZERO,
    info := body_type_t.BALL, removed := false }

/-- A body at rest of infinite mass with the given shape and kind. -/
def static_body (shape : List vector_t) (info : body_type_t) : body_t :=
  { shape := shape, mass := mass_t.INFINITY, centroid := polygon_centroid shape,
    velocity := VEC_ZERO, rotation := 0, force := VEC_ZERO, impulse := VEC_ZERO,
    info := info, removed := false }

/-- The body `add_user` allocates. -/
def user_body : body_t :=
  static_body (make_rectangle USER_INIT_POS RECTANGLE_WIDTH USER_HEIGHT) body_type_t.WALL

/-- The four bodies `add_walls` allocates, in allocation order. -/
def WALL_BODIES : List body_t :=
  [static_body (make_rectangle ⟨MAX.x, MAX.y / 2⟩ WALL_DIM MAX.y) body_type_t.WALL,
   static_body (make_rectangle ⟨0, MAX.y / 2⟩ WALL_DIM MAX.y) body_type_t.WALL,
   static_body (make_rectangle ⟨MAX.x / 2, MAX.y⟩ MAX.x WALL_DIM) body_type_t.WALL,
   static_body (make_rectangle ⟨MAX.x / 2, 0⟩ MAX.x WALL_DIM) body_type_t.GROUND]

/-- The entry the last loop of `reset_game` registers for a brick. -/
def brick_creator (ball body : Nat) : collision_t :=
  ⟨ball, body, handler_t.breakout_collision_handler, aux_t.NULL, 1⟩

/-- Memory after the first loop of `reset_game` has visited the bodies `l`. -/
def remove_bricks_mem (l : List Nat) (mem : List body_t) : List body_t :=
  l.foldl (fun m body => if get_type m body = some body_type_t.BRICK then body_remove m body else m)
    mem

/-- The memory right after `emscripten_init`: the ball, the thirty boxes, the paddle, the
walls and the ground. -/
def init_mem (ball_shape : List vector_t) : List body_t :=
  ball_body ball_shape :: (BRICK_BODIES ++ user_body :: WALL_BODIES)

/-- The entries `emscripten_init` registers. -/
def INIT_CREATORS : List collision_t :=
  (List.range 36).filterMap (creator_for (init_mem []) 0)

/-- Memory when `reset_game` returns. -/
def reset_mem (state : state_t) : List body_t :=
  body_reset
    (body_set_centroid
      (body_set_velocity (remove_bricks_mem state.scene.bodies state.mem ++ BRICK_BODIES)
        state.ball BALL_INIT_VEL)
      state.ball BALL_INIT_POS)
    state.ball

/-- A memory holding the ball (a square for its shape) and the brick of column 0, row 0. -/
def ball_brick_mem : List body_t :=
  [ball_body (make_rectangle BALL_INIT_POS 30 30), box_body 0 0]

/-- The state `emscripten_init` builds when the ball's polygon is a square. -/
def square_ball_state : state_t := emscripten_init (make_rectangle BALL_INIT_POS 30 30)

/-- What the game code keeps true of the state: a body flagged removed is of kind BRICK,
and every destructive entry has a body of kind BRICK as its body2. -/
def game_inv (state : state_t) : Prop :=
  (∀ q, body_is_removed state.mem q = some true →
    get_type state.mem q = some body_type_t.BRICK) ∧
  (∀ e ∈ state.scene.force_creators, e.handler = handler_t.breakout_collision_handler →
    get_type state.mem e.body2 = some body_type_t.BRICK)

/-- What the game code keeps true of the ball: `state->ball` refers to a body of kind BALL,
and every entry has the ball as its body1 and another body as its body2. -/
def ball_inv (state : state_t) : Prop :=
  get_type state.mem state.ball = some body_type_t.BALL ∧
  (∀ e ∈ state.scene.force_creators, e.body1 = state.ball ∧ e.body2 ≠ state.ball)

/-- Number of bodies of a kind in the scene's body list. -/
def count_kind (state : state_t) (k : body_type_t) : Nat :=
  (state.scene.bodies.filter (fun body => get_type state.mem body = some k)).length

/-- Number of entries with a given handler. -/
def count_handler (state : state_t) (h : handler_t) : Nat :=
  (state.scene.force_creators.filter (fun e => e.handler = h)).length

/-! ## Theorems -/

theorem int_add_of_in_range (a b : Int) (h1 : INT_MIN ≤ a + b) (h2 : a + b ≤ INT_MAX) :
    int_add a b = a + b := by
  unfold int_add
  unfold INT_MIN at h1
  unfold INT_MAX at h2
  omega

/-- C6: when the sums `x0 + w` and `y0 + h` do not overflow, `click_in_button` answers true
exactly for the clicks strictly inside the bounding box; clicks on an edge and clicks on a
box of non-positive width or height get false. -/
theorem click_in_button_iff (button : asset_t) (x y : ℚ)
    (hsum : sums_in_range button.bounding_box) :
    (click_in_button button x y = true ↔
      ((button.bounding_box.x : ℚ) < x ∧ x < (button.bounding_box.x : ℚ) + button.bounding_box.w ∧
       (button.bounding_box.y : ℚ) < y ∧ y < (button.bounding_box.y : ℚ) + button.bounding_box.h)) ∧
    ((x = button.bounding_box.x ∨ x = (button.bounding_box.x : ℚ) + button.bounding_box.w ∨
      y = button.bounding_box.y ∨ y = (button.bounding_box.y : ℚ) + button.bounding_box.h) →
      click_in_button button x y = false) ∧
    ((button.bounding_box.w ≤ 0 ∨ button.bounding_box.h ≤ 0) →
      click_in_button button x y = false) := by
  obtain ⟨h1, h2, h3, h4⟩ := hsum
  have hx := int_add_of_in_range _ _ h1 h2
  have hy := int_add_of_in_range _ _ h3 h4
  have key : click_in_button button x y = true ↔
      ((button.bounding_box.x : ℚ) < x ∧ x < (button.bounding_box.x : ℚ) + button.bounding_box.w ∧
       (button.bounding_box.y : ℚ) < y ∧ y < (button.bounding_box.y : ℚ) + button.bounding_box.h) := by
    unfold click_in_button
    simp only [hx, hy, Int.cast_add, gt_iff_lt]
    constructor
    · intro h
      split at h
      · rename_i hc
        exact ⟨hc.2.1, hc.1, hc.2.2.2, hc.2.2.1⟩
      · exact absurd h (by decide)
    · intro h
      rw [if_pos ⟨h.2.1, h.1, h.2.2.2, h.2.2.1⟩]
  refine ⟨key, ?_, ?_⟩
  · intro hedge
    cases hb : click_in_button button x y with
    | false => rfl
    | true =>
      have h := key.mp hb
      rcases hedge with h0 | h0 | h0 | h0
      · exact absurd h.1 (by rw [h0]; exact lt_irrefl _)
      · exact absurd h.2.1 (by rw [h0]; exact lt_irrefl _)
      · exact absurd h.2.2.1 (by rw [h0]; exact lt_irrefl _)
      · exact absurd h.2.2.2 (by rw [h0]; exact lt_irrefl _)
  · intro hempty
    cases hb : click_in_button button x y with
    | false => rfl
    | true =>
      have h := key.mp hb
      rcases hempty with h0 | h0
      · have : (button.bounding_box.w : ℚ) ≤ 0 := by exact_mod_cast h0
        linarith [h.1, h.2.1]
      · have : (button.bounding_box.h : ℚ) ≤ 0 := by exact_mod_cast h0
        linarith [h.2.2.1, h.2.2.2]

/-- C7: `make_rectangle` returns the four corners in the stated order; their mean is the
centre, the extents are `|w|` and `|h|`, the signed shoelace area is `w * h`, and for positive
width and height the polygon runs counter-clockwise with non-zero area. -/
theorem make_rectangle_spec (center : vector_t) (w h : ℚ) :
    make_rectangle center w h =
      [⟨center.x - w / 2, center.y - h / 2⟩, ⟨center.x + w / 2, center.y - h / 2⟩,
       ⟨center.x + w / 2, center.y + h / 2⟩, ⟨center.x - w / 2, center.y + h / 2⟩] ∧
    (make_rectangle center w h).length = 4 ∧
    vertex_mean (make_rectangle center w h) = center ∧
    extent_x (make_rectangle center w h) = |w| ∧
    extent_y (make_rectangle center w h) = |h| ∧
    signed_area (make_rectangle center w h) = w * h ∧
    (0 < w → 0 < h → 0 < signed_area (make_rectangle center w h) ∧
      signed_area (make_rectangle center w h) ≠ 0) := by
  have harea : signed_area (make_rectangle center w h) = w * h := by
    simp only [make_rectangle, signed_area, shoelace_sum]
    ring
  refine ⟨rfl, rfl, ?_, ?_, ?_, harea, ?_⟩
  · obtain ⟨cx, cy⟩ := center
    simp only [make_rectangle, vertex_mean, List.map, List.sum_cons, List.sum_nil, List.length]
    congr 1
    · push_cast; ring
    · push_cast; ring
  · simp only [make_rectangle, extent_x, spread, List.map, List.foldl]
    rcases le_total 0 w with hw | hw
    · rw [abs_of_nonneg hw]
      simp only [max_def, min_def]
      split_ifs <;> linarith
    · rw [abs_of_nonpos hw]
      simp only [max_def, min_def]
      split_ifs <;> linarith
  · simp only [make_rectangle, extent_y, spread, List.map, List.foldl]
    rcases le_total 0 h with hh | hh
    · rw [abs_of_nonneg hh]
      simp only [max_def, min_def]
      split_ifs <;> linarith
    · rw [abs_of_nonpos hh]
      simp only [max_def, min_def]
      split_ifs <;> linarith
  · intro hw hh
    rw [harea]
    have : 0 < w * h := mul_pos hw hh
    exact ⟨this, ne_of_gt this⟩

/-! ### Memory updates -/

theorem length_mem_update (m : List body_t) (p : Nat) (f : body_t → body_t) :
    (mem_update m p f).length = m.length := by
  induction m generalizing p with
  | nil => rfl
  | cons b rest ih =>
    cases p with
    | zero => rfl
    | succ p => simp [mem_update, ih]

theorem getElem?_mem_update (m : List body_t) (p : Nat) (f : body_t → body_t) (q : Nat) :
    (mem_update m p f)[q]? = if q = p then (m[q]?).map f else m[q]? := by
  induction m generalizing p q with
  | nil => simp [mem_update]
  | cons b rest ih =>
    cases p with
    | zero =>
      cases q with
      | zero => simp [mem_update]
      | succ q => simp [mem_update]
    | succ p =>
      cases q with
      | zero => simp [mem_update]
      | succ q => simp [mem_update, ih]

theorem mem_update_append_length (m : List body_t) (b : body_t) (f : body_t → body_t) :
    mem_update (m ++ [b]) m.length f = m ++ [f b] := by
  induction m with
  | nil => rfl
  | cons c rest ih => simp [mem_update, ih]

/-! ### Allocation of the bodies -/

theorem push_all_nil (st : state_t) : push_all st [] = st := by
  simp [push_all]

theorem push_all_push_all (st : state_t) (as bs : List body_t) :
    push_all (push_all st as) bs = push_all st (as ++ bs) := by
  have h := List.range'_append_1 st.mem.length as.length bs.length
  simp only [push_all, List.length_append, List.append_assoc]
  rw [h, Nat.add_comm as.length bs.length]

theorem add_brick_eq (st : state_t) (j i : Nat) :
    add_brick st j i = push_all st [box_body j i] := by
  have hstone : (((i : ℚ) = FIRST_STONE.x ∧ (j : ℚ) = FIRST_STONE.y) ∨
      ((i : ℚ) = SECOND_STONE.x ∧ (j : ℚ) = SECOND_STONE.y)) ↔
      ((i = 1 ∧ j = 7) ∨ (i = 2 ∧ j = 2)) := by
    simp only [FIRST_STONE, SECOND_STONE]
    constructor
    · rintro (⟨h1, h2⟩ | ⟨h1, h2⟩)
      · left; exact ⟨by exact_mod_cast h1, by exact_mod_cast h2⟩
      · right; exact ⟨by exact_mod_cast h1, by exact_mod_cast h2⟩
    · rintro (⟨h1, h2⟩ | ⟨h1, h2⟩)
      · left; subst h1; subst h2; exact ⟨by norm_num, by norm_num⟩
      · right; subst h1; subst h2; exact ⟨by norm_num, by norm_num⟩
  unfold add_brick
  by_cases h : (i = 1 ∧ j = 7) ∨ (i = 2 ∧ j = 2)
  · simp [hstone, h, push_all, box_body, body_init_with_info, scene_add_body, List.range']
  · simp [hstone, h, push_all, box_body, body_init_with_info, scene_add_body, List.range']

theorem foldl_add_brick (j : Nat) (l : List Nat) (st : state_t) :
    l.foldl (fun s i => add_brick s j i) st = push_all st (l.map (box_body j)) := by
  induction l generalizing st with
  | nil => simp [push_all_nil]
  | cons i rest ih =>
    rw [List.foldl_cons, ih, add_brick_eq, push_all_push_all]
    rfl

theorem foldl_add_brick_rows (cols rows : List Nat) (st : state_t) :
    cols.foldl (fun s j => rows.foldl (fun s i => add_brick s j i) s) st =
      push_all st (cols.flatMap (fun j => rows.map (box_body j))) := by
  induction cols generalizing st with
  | nil => simp [push_all_nil]
  | cons j rest ih =>
    rw [List.foldl_cons, ih, foldl_add_brick, push_all_push_all, List.flatMap_cons]

theorem add_bricks_eq (st : state_t) : add_bricks st = push_all st BRICK_BODIES := by
  unfold add_bricks BRICK_BODIES
  exact foldl_add_brick_rows _ _ st

theorem length_BRICK_BODIES : BRICK_BODIES.length = 30 := by
  simp [BRICK_BODIES, BRICKS_IN_ROW, ROWS, List.range_succ, List.flatMap]

theorem add_ball_eq (sh : List vector_t) (st : state_t) :
    add_ball sh st = { push_all st [ball_body sh] with ball := st.mem.length } := by
  simp [add_ball, push_all, ball_body, body_init_with_info, body_set_velocity,
    mem_update_append_length, scene_add_body, List.range']

theorem add_user_eq (st : state_t) :
    add_user st = { push_all st [user_body] with user := st.mem.length } := by
  simp [add_user, push_all, user_body, static_body, body_init_with_info, body_set_velocity,
    mem_update_append_length, scene_add_body, List.range', USER_MASS]

theorem add_walls_eq (st : state_t) : add_walls st = push_all st WALL_BODIES := by
  simp [add_walls, push_all, WALL_BODIES, static_body, body_init_with_info, scene_add_body,
    List.range']

/-! ### The loop over the bodies of the scene -/

theorem for_each_body_aux (st : state_t) (F : state_t → Nat → state_t)
    (hF : ∀ s b, (F s b).scene.bodies = s.scene.bodies) (k : Nat)
    (hk : k ≤ st.scene.bodies.length) :
    (List.range k).foldl
        (fun s i => match scene_get_body s.scene i with
          | some body => F s body
          | none => s) st = (st.scene.bodies.take k).foldl F st ∧
    ((st.scene.bodies.take k).foldl F st).scene.bodies = st.scene.bodies := by
  induction k with
  | zero => simp
  | succ k ih =>
    have hlt : k < st.scene.bodies.length := hk
    obtain ⟨h1, h2⟩ := ih (Nat.le_of_lt hlt)
    have htake : st.scene.bodies.take (k + 1) =
        st.scene.bodies.take k ++ [st.scene.bodies[k]] := by
      rw [List.take_succ, List.getElem?_eq_getElem hlt]
      rfl
    rw [List.range_succ, List.foldl_append, h1, htake, List.foldl_append]
    simp only [List.foldl_cons, List.foldl_nil, scene_get_body, h2,
      List.getElem?_eq_getElem hlt, hF, and_self]

theorem for_each_body_eq (st : state_t) (F : state_t → Nat → state_t)
    (hF : ∀ s b, (F s b).scene.bodies = s.scene.bodies) :
    for_each_body st F = st.scene.bodies.foldl F st := by
  have h := (for_each_body_aux st F hF st.scene.bodies.length (Nat.le_refl _)).1
  rw [List.take_length] at h
  exact h

theorem remove_brick_bodies (s : state_t) (b : Nat) :
    (remove_brick s b).scene.bodies = s.scene.bodies := by
  unfold remove_brick
  split <;> rfl

theorem add_brick_collision_bodies (s : state_t) (b : Nat) :
    (add_brick_collision s b).scene.bodies = s.scene.bodies := by
  unfold add_brick_collision
  split <;> rfl

theorem add_force_creator_bodies (s : state_t) (b : Nat) :
    (add_force_creator s b).scene.bodies = s.scene.bodies := by
  unfold add_force_creator
  split <;> rfl

theorem foldl_remove_brick (l : List Nat) (s : state_t) :
    l.foldl remove_brick s = { s with mem := remove_bricks_mem l s.mem } := by
  induction l generalizing s with
  | nil => rfl
  | cons b rest ih =>
    rw [List.foldl_cons, ih]
    unfold remove_brick remove_bricks_mem
    by_cases h : get_type s.mem b = some body_type_t.BRICK
    · simp [h]
    · simp [h]

theorem add_force_creator_eq (s : state_t) (b : Nat) :
    add_force_creator s b =
      { s with scene := { s.scene with force_creators :=
          s.scene.force_creators ++ (creator_for s.mem s.ball b).toList } } := by
  unfold add_force_creator creator_for
  split <;> simp_all [create_breakout_collision, create_physics_collision, create_collision,
    ELASTICITY]

theorem foldl_add_force_creator (l : List Nat) (s : state_t) :
    l.foldl add_force_creator s =
      { s with scene := { s.scene with force_creators :=
          s.scene.force_creators ++ l.filterMap (creator_for s.mem s.ball) } } := by
  induction l generalizing s with
  | nil => simp
  | cons b rest ih =>
    rw [List.foldl_cons, ih, add_force_creator_eq]
    cases h : creator_for s.mem s.ball b <;> simp [List.filterMap_cons, h]

theorem add_brick_collision_eq (s : state_t) (b : Nat) :
    add_brick_collision s b =
      { s with scene := { s.scene with force_creators :=
          (s.scene.force_creators ++
            (if get_type s.mem b = some body_type_t.BRICK then [brick_creator s.ball b]
             else [])) } } := by
  unfold add_brick_collision
  split <;> simp [create_breakout_collision, create_collision, ELASTICITY, brick_creator]

theorem foldl_add_brick_collision (l : List Nat) (s : state_t) :
    l.foldl add_brick_collision s =
      { s with scene := { s.scene with force_creators :=
          (s.scene.force_creators ++
            (l.filter (fun b => get_type s.mem b = some body_type_t.BRICK)).map
              (brick_creator s.ball)) } } := by
  induction l generalizing s with
  | nil => simp
  | cons b rest ih =>
    rw [List.foldl_cons, ih, add_brick_collision_eq]
    by_cases h : get_type s.mem b = some body_type_t.BRICK
    · simp [List.filter_cons, h]
    · simp [List.filter_cons, h]

/-! ### Kind and removal flag under the body operations -/

theorem get_type_mem_update (m : List body_t) (p : Nat) (f : body_t → body_t)
    (hf : ∀ b, (f b).info = b.info) (q : Nat) :
    get_type (mem_update m p f) q = get_type m q := by
  unfold get_type
  rw [getElem?_mem_update]
  split
  · cases m[q]? <;> simp [hf]
  · rfl

theorem body_is_removed_mem_update (m : List body_t) (p : Nat) (f : body_t → body_t)
    (hf : ∀ b, (f b).removed = b.removed) (q : Nat) :
    body_is_removed (mem_update m p f) q = body_is_removed m q := by
  unfold body_is_removed
  rw [getElem?_mem_update]
  split
  · cases m[q]? <;> simp [hf]
  · rfl

theorem get_type_body_remove (m : List body_t) (p q : Nat) :
    get_type (body_remove m p) q = get_type m q := by
  unfold body_remove
  apply get_type_mem_update
  intro b
  rfl

theorem body_is_removed_body_remove (m : List body_t) (p q : Nat) :
    body_is_removed (body_remove m p) q =
      if q = p then (m[q]?).map (fun _ => true) else body_is_removed m q := by
  unfold body_is_removed body_remove
  rw [getElem?_mem_update]
  split
  · cases m[q]? <;> simp
  · rfl

theorem length_body_remove (m : List body_t) (p : Nat) :
    (body_remove m p).length = m.length :=
  length_mem_update m p _

theorem get_type_lt (m : List body_t) (q : Nat) (k : body_type_t)
    (h : get_type m q = some k) : q < m.length := by
  unfold get_type at h
  cases hq : m[q]? with
  | none => simp [hq] at h
  | some b => exact (List.getElem?_eq_some_iff.mp hq).1

theorem get_type_append_lt (m bs : List body_t) (q : Nat) (h : q < m.length) :
    get_type (m ++ bs) q = get_type m q := by
  unfold get_type
  rw [List.getElem?_append_left h]

theorem body_is_removed_append_lt (m bs : List body_t) (q : Nat) (h : q < m.length) :
    body_is_removed (m ++ bs) q = body_is_removed m q := by
  unfold body_is_removed
  rw [List.getElem?_append_left h]

theorem get_type_append_ge (m bs : List body_t) (q : Nat) (h : m.length ≤ q) :
    get_type (m ++ bs) q = get_type bs (q - m.length) := by
  unfold get_type
  rw [List.getElem?_append_right h]

theorem body_is_removed_append_ge (m bs : List body_t) (q : Nat) (h : m.length ≤ q) :
    body_is_removed (m ++ bs) q = body_is_removed bs (q - m.length) := by
  unfold body_is_removed
  rw [List.getElem?_append_right h]

theorem get_type_body_add_impulse (m : List body_t) (p : Nat) (j : vector_t) (q : Nat) :
    get_type (body_add_impulse m p j) q = get_type m q := by
  unfold body_add_impulse
  apply get_type_mem_update
  intro b
  rfl

theorem body_is_removed_body_add_impulse (m : List body_t) (p : Nat) (j : vector_t) (q : Nat) :
    body_is_removed (body_add_impulse m p j) q = body_is_removed m q := by
  unfold body_add_impulse
  apply body_is_removed_mem_update
  intro b
  rfl

theorem length_body_add_impulse (m : List body_t) (p : Nat) (j : vector_t) :
    (body_add_impulse m p j).length = m.length := by
  unfold body_add_impulse
  exact length_mem_update _ _ _

theorem get_type_body_set_velocity (m : List body_t) (p : Nat) (v : vector_t) (q : Nat) :
    get_type (body_set_velocity m p v) q = get_type m q := by
  unfold body_set_velocity
  apply get_type_mem_update
  intro b
  rfl

theorem body_is_removed_body_set_velocity (m : List body_t) (p : Nat) (v : vector_t) (q : Nat) :
    body_is_removed (body_set_velocity m p v) q = body_is_removed m q := by
  unfold body_set_velocity
  apply body_is_removed_mem_update
  intro b
  rfl

theorem length_body_set_velocity (m : List body_t) (p : Nat) (v : vector_t) :
    (body_set_velocity m p v).length = m.length := by
  unfold body_set_velocity
  exact length_mem_update _ _ _

theorem get_type_body_set_centroid (m : List body_t) (p : Nat) (c : vector_t) (q : Nat) :
    get_type (body_set_centroid m p c) q = get_type m q := by
  unfold body_set_centroid
  apply get_type_mem_update
  intro b
  rfl

theorem body_is_removed_body_set_centroid (m : List body_t) (p : Nat) (c : vector_t) (q : Nat) :
    body_is_removed (body_set_centroid m p c) q = body_is_removed m q := by
  unfold body_set_centroid
  apply body_is_removed_mem_update
  intro b
  rfl

theorem length_body_set_centroid (m : List body_t) (p : Nat) (c : vector_t) :
    (body_set_centroid m p c).length = m.length := by
  unfold body_set_centroid
  exact length_mem_update _ _ _

theorem get_type_body_reset (m : List body_t) (p : Nat) (q : Nat) :
    get_type (body_reset m p) q = get_type m q := by
  unfold body_reset
  apply get_type_mem_update
  intro b
  rfl

theorem body_is_removed_body_reset (m : List body_t) (p : Nat) (q : Nat) :
    body_is_removed (body_reset m p) q = body_is_removed m q := by
  unfold body_reset
  apply body_is_removed_mem_update
  intro b
  rfl

theorem length_body_reset (m : List body_t) (p : Nat) :
    (body_reset m p).length = m.length := by
  unfold body_reset
  exact length_mem_update _ _ _

/-! ### The first loop of `reset_game` -/

theorem length_remove_bricks_mem (l : List Nat) (m : List body_t) :
    (remove_bricks_mem l m).length = m.length := by
  induction l generalizing m with
  | nil => rfl
  | cons a rest ih =>
    unfold remove_bricks_mem
    rw [List.foldl_cons]
    have h := ih (if get_type m a = some body_type_t.BRICK then body_remove m a else m)
    unfold remove_bricks_mem at h
    rw [h]
    split
    · exact length_body_remove m a
    · rfl

theorem get_type_remove_bricks_mem (l : List Nat) (m : List body_t) (q : Nat) :
    get_type (remove_bricks_mem l m) q = get_type m q := by
  induction l generalizing m with
  | nil => rfl
  | cons a rest ih =>
    unfold remove_bricks_mem
    rw [List.foldl_cons]
    have h := ih (if get_type m a = some body_type_t.BRICK then body_remove m a else m)
    unfold remove_bricks_mem at h
    rw [h]
    split
    · exact get_type_body_remove m a q
    · rfl

theorem body_is_removed_remove_bricks_mem (l : List Nat) (m : List body_t) (q : Nat) :
    body_is_removed (remove_bricks_mem l m) q =
      if q ∈ l ∧ get_type m q = some body_type_t.BRICK then some true
      else body_is_removed m q := by
  induction l generalizing m with
  | nil => simp [remove_bricks_mem]
  | cons a rest ih =>
    unfold remove_bricks_mem
    rw [List.foldl_cons]
    have h := ih (if get_type m a = some body_type_t.BRICK then body_remove m a else m)
    unfold remove_bricks_mem at h
    rw [h]
    by_cases ha : get_type m a = some body_type_t.BRICK
    · simp only [ha, if_true, get_type_body_remove, body_is_removed_body_remove, List.mem_cons]
      by_cases hq : q = a
      · subst hq
        have hlt := get_type_lt m q _ ha
        simp [ha, List.getElem?_eq_getElem hlt]
      · simp [hq]
    · simp only [ha, if_false, List.mem_cons]
      by_cases hq : q = a
      · subst hq
        simp [ha]
      · simp [hq]

/-! ### The state built by `emscripten_init` -/

theorem get_type_init_mem (sh : List vector_t) (q : Nat) :
    get_type (init_mem sh) q = get_type (init_mem []) q := by
  cases q with
  | zero => rfl
  | succ q => rfl

theorem creator_for_init_mem (sh : List vector_t) :
    creator_for (init_mem sh) 0 = creator_for (init_mem []) 0 := by
  funext q
  unfold creator_for
  rw [get_type_init_mem]

theorem emscripten_init_eq (sh : List vector_t) :
    emscripten_init sh =
      { mem := init_mem sh,
        scene := { bodies := List.range 36, force_creators := INIT_CREATORS },
        time_pressed := 0, ball := 0, user := 31 } := by
  unfold emscripten_init add_force_creators
  rw [for_each_body_eq _ _ add_force_creator_bodies, foldl_add_force_creator]
  rw [add_ball_eq, add_bricks_eq, add_user_eq, add_walls_eq]
  simp only [push_all, scene_init, List.length_nil, List.nil_append, List.length_append,
    List.length_cons, length_BRICK_BODIES, List.cons_append, List.append_assoc]
  have hr : List.range' 0 (0 + 1) ++ (List.range' (0 + 1) 30 ++
      (List.range' (30 + 1) (0 + 1) ++ List.range' (30 + (0 + 1) + 1) WALL_BODIES.length)) =
      List.range 36 := by decide
  have hm : ball_body sh :: (BRICK_BODIES ++ user_body :: WALL_BODIES) = init_mem sh := rfl
  simp only [hr, hm, creator_for_init_mem]
  rfl

/-! ### The collision handlers -/

theorem length_physics_collision_handler (mem : List body_t) (body1 body2 : Nat)
    (axis : vector_t) (aux : aux_t) (fc : ℚ) :
    (physics_collision_handler mem body1 body2 axis aux fc).length = mem.length := by
  unfold physics_collision_handler
  split
  · dsimp only
    split
    · rfl
    · rw [length_body_add_impulse, length_body_add_impulse]
  · rfl

theorem get_type_physics_collision_handler (mem : List body_t) (body1 body2 : Nat)
    (axis : vector_t) (aux : aux_t) (fc : ℚ) (q : Nat) :
    get_type (physics_collision_handler mem body1 body2 axis aux fc) q = get_type mem q := by
  unfold physics_collision_handler
  split
  · dsimp only
    split
    · rfl
    · rw [get_type_body_add_impulse, get_type_body_add_impulse]
  · rfl

theorem body_is_removed_physics_collision_handler (mem : List body_t) (body1 body2 : Nat)
    (axis : vector_t) (aux : aux_t) (fc : ℚ) (q : Nat) :
    body_is_removed (physics_collision_handler mem body1 body2 axis aux fc) q =
      body_is_removed mem q := by
  unfold physics_collision_handler
  split
  · dsimp only
    split
    · rfl
    · rw [body_is_removed_body_add_impulse, body_is_removed_body_add_impulse]
  · rfl

theorem body_is_removed_lt (m : List body_t) (q : Nat) (h : q < m.length) :
    ∃ r, body_is_removed m q = some r := by
  unfold body_is_removed
  rw [List.getElem?_eq_getElem h]
  exact ⟨_, rfl⟩

theorem breakout_collision_handler_effect (mem : List body_t) (body1 body2 : Nat)
    (axis : vector_t) (aux : aux_t) (force_const : ℚ) (h2 : body2 < mem.length) :
    breakout_collision_handler mem body1 body2 axis aux force_const =
      body_remove (physics_collision_handler mem body1 body2 axis aux force_const) body2 ∧
    (∀ q, body_get_velocity (breakout_collision_handler mem body1 body2 axis aux force_const) q =
      body_get_velocity (physics_collision_handler mem body1 body2 axis aux force_const) q) ∧
    (∀ q, q ≠ body2 →
      (breakout_collision_handler mem body1 body2 axis aux force_const)[q]? =
        (physics_collision_handler mem body1 body2 axis aux force_const)[q]?) ∧
    (breakout_collision_handler mem body1 body2 axis aux force_const)[body2]? =
      ((physics_collision_handler mem body1 body2 axis aux force_const)[body2]?).map
        (fun b => { b with removed := true }) ∧
    body_is_removed (breakout_collision_handler mem body1 body2 axis aux force_const) body2 =
      some true ∧
    (body1 ≠ body2 →
      body_is_removed (breakout_collision_handler mem body1 body2 axis aux force_const) body1 =
        body_is_removed mem body1) := by
  refine ⟨rfl, ?_, ?_, ?_, ?_, ?_⟩
  · intro q
    unfold breakout_collision_handler body_remove body_get_velocity
    rw [getElem?_mem_update]
    split
    · cases (physics_collision_handler mem body1 body2 axis aux force_const)[q]? <;> rfl
    · rfl
  · intro q hq
    unfold breakout_collision_handler body_remove
    rw [getElem?_mem_update, if_neg hq]
  · unfold breakout_collision_handler body_remove
    rw [getElem?_mem_update, if_pos rfl]
  · unfold breakout_collision_handler
    rw [body_is_removed_body_remove, if_pos rfl]
    have hlt : body2 < (physics_collision_handler mem body1 body2 axis aux force_const).length := by
      rw [length_physics_collision_handler]
      exact h2
    rw [List.getElem?_eq_getElem hlt]
    rfl
  · intro hne
    unfold breakout_collision_handler
    rw [body_is_removed_body_remove, if_neg hne, body_is_removed_physics_collision_handler]

/-- C2: whatever elasticity the caller passes, `create_breakout_collision` registers exactly
one entry for the pair, with `breakout_collision_handler`, aux `NULL` and the force constant
`ELASTICITY = 1`; called with elasticity `1/2` the entry's force constant is `1`, not `1/2`. -/
theorem create_breakout_collision_force_const :
    (∀ (scene : scene_t) (body1 body2 : Nat) (e : ℚ),
      create_breakout_collision scene body1 body2 e =
        { scene with force_creators := scene.force_creators ++
            [⟨body1, body2, handler_t.breakout_collision_handler, aux_t.NULL, 1⟩] }) ∧
    (create_breakout_collision scene_init 0 1 (1 / 2)).force_creators =
      [⟨0, 1, handler_t.breakout_collision_handler, aux_t.NULL, 1⟩] ∧
    (1 : ℚ) ≠ 1 / 2 := by
  refine ⟨fun _ _ _ _ => rfl, rfl, by norm_num⟩

/-! ### `add_force_creators` -/

theorem add_force_creators_eq (st : state_t) :
    add_force_creators st =
      { st with scene := { st.scene with force_creators :=
          st.scene.force_creators ++ st.scene.bodies.filterMap (creator_for st.mem st.ball) } } := by
  unfold add_force_creators
  rw [for_each_body_eq _ _ add_force_creator_bodies, foldl_add_force_creator]

set_option maxRecDepth 100000 in
/-- C3: `add_force_creators` registers, in the order of the scene's body list, one entry per
body of kind BRICK, WALL or GROUND and none for a BALL body (`creator_for`): body1 is
`state->ball`, body2 the body, the force constant `ELASTICITY = 1`, the handler chosen by the
kind. On the scene built by `emscripten_init` (36 bodies: 1 BALL of mass 5, 28 BRICK, 6 WALL,
1 GROUND) that makes 35 entries, 28 destructive, 6 physics, 1 reset; none pairs the ball with
itself and none pairs two bodies of infinite mass. -/
theorem add_force_creators_spec :
    (∀ st : state_t,
      (add_force_creators st).mem = st.mem ∧ (add_force_creators st).ball = st.ball ∧
      (add_force_creators st).scene.bodies = st.scene.bodies ∧
      (add_force_creators st).scene.force_creators =
        st.scene.force_creators ++ st.scene.bodies.filterMap (creator_for st.mem st.ball)) ∧
    ELASTICITY = 1 ∧
    (∀ sh : List vector_t,
      scene_bodies (emscripten_init sh).scene = 36 ∧
      count_kind (emscripten_init sh) body_type_t.BALL = 1 ∧
      count_kind (emscripten_init sh) body_type_t.BRICK = 28 ∧
      count_kind (emscripten_init sh) body_type_t.WALL = 6 ∧
      count_kind (emscripten_init sh) body_type_t.GROUND = 1 ∧
      get_type (emscripten_init sh).mem (emscripten_init sh).ball = some body_type_t.BALL ∧
      body_get_mass (emscripten_init sh).mem (emscripten_init sh).ball =
        some (mass_t.finite 5) ∧
      (emscripten_init sh).scene.force_creators.length = 35 ∧
      count_handler (emscripten_init sh) handler_t.breakout_collision_handler = 28 ∧
      count_handler (emscripten_init sh) handler_t.physics_collision_handler = 6 ∧
      count_handler (emscripten_init sh) handler_t.reset_game = 1 ∧
      (∀ e ∈ (emscripten_init sh).scene.force_creators,
        e.body1 = (emscripten_init sh).ball ∧ e.body2 ≠ (emscripten_init sh).ball ∧
        ¬ (body_get_mass (emscripten_init sh).mem e.body1 = some mass_t.INFINITY ∧
           body_get_mass (emscripten_init sh).mem e.body2 = some mass_t.INFINITY))) := by
  refine ⟨?_, rfl, ?_⟩
  · intro st
    rw [add_force_creators_eq]
    exact ⟨rfl, rfl, rfl, rfl⟩
  · intro sh
    rw [emscripten_init_eq]
    have hk : ∀ k, count_kind
        { mem := init_mem sh,
          scene := { bodies := List.range 36, force_creators := INIT_CREATORS },
          time_pressed := 0, ball := 0, user := 31 } k =
        ((List.range 36).filter (fun body => get_type (init_mem []) body = some k)).length := by
      intro k
      simp only [count_kind, get_type_init_mem sh]
    have hpairs : ∀ e ∈ INIT_CREATORS, e.body1 = 0 ∧ e.body2 ≠ 0 := by decide
    have hh : ∀ h, count_handler
        { mem := init_mem sh,
          scene := { bodies := List.range 36, force_creators := INIT_CREATORS },
          time_pressed := 0, ball := 0, user := 31 } h =
        (INIT_CREATORS.filter (fun e => e.handler = h)).length := fun _ => rfl
    have hlen : INIT_CREATORS.length = 35 := by decide
    refine ⟨(by decide : (List.range 36).length = 36), ?_, ?_, ?_, ?_, rfl, rfl, hlen,
      ?_, ?_, ?_, ?_⟩
    · rw [hk]; decide
    · rw [hk]; decide
    · rw [hk]; decide
    · rw [hk]; decide
    · rw [hh]; decide
    · rw [hh]; decide
    · rw [hh]; decide
    · intro e he
      obtain ⟨h1, h2⟩ := hpairs e he
      refine ⟨h1, h2, ?_⟩
      intro hinf
      have hm := hinf.1
      simp only [h1] at hm
      exact absurd hm (by simp [body_get_mass, init_mem, ball_body, BALL_MASS])

/-! ### `reset_game` -/

theorem reset_game_eq (st : state_t) (b1 b2 : Nat) (axis : vector_t) (fc : ℚ) :
    reset_game st b1 b2 axis aux_t.STATE fc =
      { mem := reset_mem st,
        scene :=
          { bodies := st.scene.bodies ++ List.range' st.mem.length 30,
            force_creators := (st.scene.force_creators ++
              ((st.scene.bodies ++ List.range' st.mem.length 30).filter
                (fun b => get_type (reset_mem st) b = some body_type_t.BRICK)).map
                (brick_creator st.ball)) },
        time_pressed := st.time_pressed, ball := st.ball, user := st.user } := by
  unfold reset_game
  simp only
  rw [for_each_body_eq _ _ add_brick_collision_bodies, foldl_add_brick_collision,
    add_bricks_eq, for_each_body_eq _ _ remove_brick_bodies, foldl_remove_brick]
  simp only [push_all, length_remove_bricks_mem, length_BRICK_BODIES, reset_mem]

theorem length_reset_mem (st : state_t) : (reset_mem st).length = st.mem.length + 30 := by
  unfold reset_mem
  rw [length_body_reset, length_body_set_centroid, length_body_set_velocity,
    List.length_append, length_remove_bricks_mem, length_BRICK_BODIES]

theorem get_type_reset_mem (st : state_t) (q : Nat) :
    get_type (reset_mem st) q = get_type (st.mem ++ BRICK_BODIES) q := by
  unfold reset_mem
  rw [get_type_body_reset, get_type_body_set_centroid, get_type_body_set_velocity]
  by_cases h : q < st.mem.length
  · rw [get_type_append_lt _ _ _ (by rw [length_remove_bricks_mem]; exact h),
      get_type_append_lt _ _ _ h, get_type_remove_bricks_mem]
  · rw [get_type_append_ge _ _ _ (by rw [length_remove_bricks_mem]; exact Nat.le_of_not_lt h),
      get_type_append_ge _ _ _ (Nat.le_of_not_lt h), length_remove_bricks_mem]

theorem removed_BRICK_BODIES (b : body_t) (hb : b ∈ BRICK_BODIES) : b.removed = false := by
  unfold BRICK_BODIES at hb
  rw [List.mem_flatMap] at hb
  obtain ⟨j, _, hj⟩ := hb
  rw [List.mem_map] at hj
  obtain ⟨i, _, hi⟩ := hj
  rw [← hi]
  rfl

theorem body_is_removed_BRICK_BODIES (k : Nat) :
    body_is_removed BRICK_BODIES k = if k < 30 then some false else none := by
  unfold body_is_removed
  by_cases h : k < 30
  · have hlt : k < BRICK_BODIES.length := by rw [length_BRICK_BODIES]; exact h
    rw [if_pos h, List.getElem?_eq_getElem hlt]
    simp [removed_BRICK_BODIES _ (List.getElem_mem hlt)]
  · have hge : BRICK_BODIES.length ≤ k := by
      rw [length_BRICK_BODIES]; exact Nat.le_of_not_lt h
    rw [if_neg h, List.getElem?_eq_none hge]
    rfl

theorem body_is_removed_reset_mem (st : state_t) (q : Nat) :
    body_is_removed (reset_mem st) q =
      if q < st.mem.length then
        (if q ∈ st.scene.bodies ∧ get_type st.mem q = some body_type_t.BRICK then some true
         else body_is_removed st.mem q)
      else if q < st.mem.length + 30 then some false else none := by
  unfold reset_mem
  rw [body_is_removed_body_reset, body_is_removed_body_set_centroid,
    body_is_removed_body_set_velocity]
  by_cases h : q < st.mem.length
  · rw [if_pos h, body_is_removed_append_lt _ _ _ (by rw [length_remove_bricks_mem]; exact h),
      body_is_removed_remove_bricks_mem]
  · rw [if_neg h,
      body_is_removed_append_ge _ _ _ (by rw [length_remove_bricks_mem]; exact Nat.le_of_not_lt h),
      length_remove_bricks_mem, body_is_removed_BRICK_BODIES]
    have hge := Nat.le_of_not_lt h
    by_cases h2 : q < st.mem.length + 30
    · rw [if_pos h2, if_pos (by omega)]
    · rw [if_neg h2, if_neg (by omega)]

theorem length_init_mem (sh : List vector_t) : (init_mem sh).length = 36 := by
  simp [init_mem, length_BRICK_BODIES, WALL_BODIES]

theorem body_get_velocity_reset_mem (st : state_t) (hball : st.ball < st.mem.length) :
    body_get_velocity (reset_mem st) st.ball = some BALL_INIT_VEL ∧
    body_get_centroid (reset_mem st) st.ball = some BALL_INIT_POS := by
  have hlt : st.ball < (remove_bricks_mem st.scene.bodies st.mem ++ BRICK_BODIES).length := by
    rw [List.length_append, length_remove_bricks_mem]
    omega
  unfold reset_mem body_get_velocity body_get_centroid body_reset body_set_centroid
    body_set_velocity
  simp only [getElem?_mem_update, if_true, List.getElem?_eq_getElem hlt, Option.map_some']
  exact ⟨trivial, trivial⟩

theorem reset_game_ball_effect (st : state_t) (b1 b2 : Nat) (axis : vector_t) (fc : ℚ)
    (hball : st.ball < st.mem.length) :
    (reset_game st b1 b2 axis aux_t.STATE fc).ball = st.ball ∧
    body_get_velocity (reset_game st b1 b2 axis aux_t.STATE fc).mem st.ball =
      some BALL_INIT_VEL ∧
    body_get_centroid (reset_game st b1 b2 axis aux_t.STATE fc).mem st.ball =
      some BALL_INIT_POS ∧
    BALL_INIT_VEL = ⟨-500, 400⟩ ∧ BALL_INIT_POS = ⟨500, 70⟩ ∧
    (∀ (m : List body_t) (p q : Nat),
      body_get_velocity (body_reset m p) q = body_get_velocity m q ∧
      body_get_centroid (body_reset m p) q = body_get_centroid m q) ∧
    (get_type st.mem st.ball ≠ some body_type_t.BRICK →
      body_is_removed (reset_game st b1 b2 axis aux_t.STATE fc).mem st.ball =
        body_is_removed st.mem st.ball) := by
  rw [reset_game_eq]
  obtain ⟨hv, hc⟩ := body_get_velocity_reset_mem st hball
  refine ⟨rfl, hv, hc, rfl, rfl, ?_, ?_⟩
  · intro m p q
    unfold body_get_velocity body_get_centroid body_reset
    rw [getElem?_mem_update]
    split
    · cases m[q]? <;> exact ⟨rfl, rfl⟩
    · exact ⟨rfl, rfl⟩
  · intro hkind
    show body_is_removed (reset_mem st) st.ball = body_is_removed st.mem st.ball
    rw [body_is_removed_reset_mem, if_pos hball, if_neg (fun h => hkind h.2)]

theorem length_filter_brick_creator (ball p : Nat) (P : Nat → Bool) (l : List Nat) :
    (((l.filter P).map (brick_creator ball)).filter (fun e => e.body2 = p)).length =
      if P p then l.count p else 0 := by
  induction l with
  | nil => simp
  | cons a rest ih =>
    by_cases ha : P a = true
    · by_cases hap : a = p
      · subst hap
        simp only [ha, if_true] at ih ⊢
        simp [List.filter_cons, ha, brick_creator, ← ih]
      · simp only [List.filter_cons, ha, if_true, List.map_cons]
        rw [if_neg (by simpa [brick_creator] using hap), ih,
          List.count_cons_of_ne (fun h => hap h.symm)]
    · have hPa : P a = false := by simpa using ha
      rw [List.filter_cons, if_neg ha, ih]
      by_cases hap : a = p
      · subst hap
        simp [hPa]
      · rw [List.count_cons_of_ne (fun h => hap h.symm)]

theorem count_bodies_after_reset (l : List Nat) (n p : Nat) (hwf : ∀ q ∈ l, q < n)
    (h1 : n ≤ p) (h2 : p < n + 30) : (l ++ List.range' n 30).count p = 1 := by
  rw [List.count_append]
  have hnot : p ∉ l := fun hmem => absurd (hwf p hmem) (Nat.not_lt.mpr h1)
  rw [List.count_eq_zero_of_not_mem hnot, Nat.zero_add]
  apply List.count_eq_one_of_mem (List.nodup_range' n 30)
  rw [List.mem_range'_1]
  exact ⟨h1, h2⟩

/-- C8 (amended): `reset_game` registers one destructive entry, with the ball as body1, aux
`NULL` and force constant 1, for each occurrence of a body of kind BRICK in the scene's body
list, flagged removed or not. A BRICK body of the scene not flagged removed gets exactly one
entry (the scene's pointers being valid), and that entry is valid at return when the ball is
un-removed. Every BRICK body that was in the scene before the call also gets an entry, and is
flagged removed at return: that entry references a removed body from its creation. -/
theorem reset_game_entries (st : state_t) (b1 b2 : Nat) (axis : vector_t) (fc : ℚ)
    (hwf : ∀ q ∈ st.scene.bodies, q < st.mem.length) :
    ∃ new : List collision_t,
      (reset_game st b1 b2 axis aux_t.STATE fc).scene.force_creators =
        st.scene.force_creators ++ new ∧
      new = ((reset_game st b1 b2 axis aux_t.STATE fc).scene.bodies.filter
          (fun b => get_type (reset_game st b1 b2 axis aux_t.STATE fc).mem b =
            some body_type_t.BRICK)).map
        (fun b => ⟨st.ball, b, handler_t.breakout_collision_handler, aux_t.NULL, 1⟩) ∧
      (∀ p ∈ (reset_game st b1 b2 axis aux_t.STATE fc).scene.bodies,
        get_type (reset_game st b1 b2 axis aux_t.STATE fc).mem p = some body_type_t.BRICK →
        body_is_removed (reset_game st b1 b2 axis aux_t.STATE fc).mem p = some false →
        (new.filter (fun e => e.body2 = p)).length = 1 ∧
        (body_is_removed (reset_game st b1 b2 axis aux_t.STATE fc).mem st.ball = some false →
          ∀ e ∈ new, e.body2 = p →
            entry_valid (reset_game st b1 b2 axis aux_t.STATE fc).mem e = true)) ∧
      (∀ p ∈ st.scene.bodies, get_type st.mem p = some body_type_t.BRICK →
        (⟨st.ball, p, handler_t.breakout_collision_handler, aux_t.NULL, 1⟩ : collision_t) ∈ new ∧
        body_is_removed (reset_game st b1 b2 axis aux_t.STATE fc).mem p = some true) := by
  rw [reset_game_eq]
  refine ⟨_, rfl, rfl, ?_, ?_⟩
  · intro p hp hk hr
    simp only at hp hk hr ⊢
    have hlt : p < st.mem.length + 30 := by
      have := get_type_lt _ _ _ hk
      rw [length_reset_mem] at this
      exact this
    have hge : st.mem.length ≤ p := by
      by_contra hcon
      have hp' : p < st.mem.length := Nat.lt_of_not_le hcon
      rw [body_is_removed_reset_mem, if_pos hp'] at hr
      rw [get_type_reset_mem, get_type_append_lt _ _ _ hp'] at hk
      rcases List.mem_append.mp hp with hmem | hmem
      · rw [if_pos ⟨hmem, hk⟩] at hr
        exact absurd hr (by decide)
      · rw [List.mem_range'_1] at hmem
        omega
    constructor
    · have hcount := length_filter_brick_creator st.ball p
        (fun b => decide (get_type (reset_mem st) b = some body_type_t.BRICK))
        (st.scene.bodies ++ List.range' st.mem.length 30)
      rw [count_bodies_after_reset _ _ _ hwf hge hlt] at hcount
      simp only [hk, decide_True, if_true] at hcount
      exact hcount
    · intro hballr e he hep
      rw [List.mem_map] at he
      obtain ⟨b, _, hb⟩ := he
      subst hb
      have hep' : b = p := hep
      subst hep'
      simp only [entry_valid, decide_eq_true_eq]
      exact ⟨hballr, hr⟩
  · intro p hp hk
    have hlt := get_type_lt _ _ _ hk
    constructor
    · rw [List.mem_map]
      refine ⟨p, ?_, rfl⟩
      rw [List.mem_filter]
      refine ⟨List.mem_append_left _ hp, ?_⟩
      simp only [decide_eq_true_eq]
      rw [get_type_reset_mem, get_type_append_lt _ _ _ hlt]
      exact hk
    · show body_is_removed (reset_mem st) p = some true
      rw [body_is_removed_reset_mem, if_pos hlt, if_pos ⟨hp, hk⟩]

theorem square_ball_state_eq :
    square_ball_state =
      { mem := init_mem (make_rectangle BALL_INIT_POS 30 30),
        scene := { bodies := List.range 36, force_creators := INIT_CREATORS },
        time_pressed := 0, ball := 0, user := 31 } := by
  unfold square_ball_state
  rw [emscripten_init_eq]

theorem square_ball_state_wf :
    ∀ q ∈ square_ball_state.scene.bodies, q < square_ball_state.mem.length := by
  rw [square_ball_state_eq]
  intro q hq
  show q < (init_mem _).length
  rw [length_init_mem]
  exact List.mem_range.mp hq

/-- C8 at a concrete input: the state built by `emscripten_init` with a square ball. -/
theorem reset_game_entries_witness :
    (∀ q ∈ square_ball_state.scene.bodies, q < square_ball_state.mem.length) ∧
    ∃ new : List collision_t,
      (reset_game square_ball_state 0 35 ⟨0, 1⟩ aux_t.STATE 1).scene.force_creators =
        square_ball_state.scene.force_creators ++ new ∧
      (∀ p ∈ square_ball_state.scene.bodies,
        get_type square_ball_state.mem p = some body_type_t.BRICK →
        (⟨square_ball_state.ball, p, handler_t.breakout_collision_handler, aux_t.NULL, 1⟩ :
          collision_t) ∈ new ∧
        body_is_removed (reset_game square_ball_state 0 35 ⟨0, 1⟩ aux_t.STATE 1).mem p =
          some true) :=
  ⟨square_ball_state_wf,
   (reset_game_entries square_ball_state 0 35 ⟨0, 1⟩ 1 square_ball_state_wf).elim
     (fun new h => ⟨new, h.1, h.2.2.2⟩)⟩

/-- C8 as stated fails on the state built by `emscripten_init`: among the entries
`reset_game` registers there is one for the brick at pointer 1, which `reset_game` has
itself flagged removed; the entry is not valid when `reset_game` returns. -/
theorem reset_game_registers_removed_brick :
    ∃ new : List collision_t,
      (reset_game square_ball_state 0 35 ⟨0, 1⟩ aux_t.STATE 1).scene.force_creators =
        square_ball_state.scene.force_creators ++ new ∧
      ∃ e ∈ new, e.handler = handler_t.breakout_collision_handler ∧ e.body2 = 1 ∧
        body_is_removed (reset_game square_ball_state 0 35 ⟨0, 1⟩ aux_t.STATE 1).mem e.body2 =
          some true ∧
        entry_valid (reset_game square_ball_state 0 35 ⟨0, 1⟩ aux_t.STATE 1).mem e = false := by
  have hmem : (1 : Nat) ∈ square_ball_state.scene.bodies := by
    rw [square_ball_state_eq]
    exact List.mem_range.mpr (by decide)
  have hk : get_type square_ball_state.mem 1 = some body_type_t.BRICK := by
    rw [square_ball_state_eq]
    rfl
  have hlt : 1 < square_ball_state.mem.length := square_ball_state_wf 1 hmem
  have hrem : body_is_removed (reset_mem square_ball_state) 1 = some true := by
    rw [body_is_removed_reset_mem, if_pos hlt, if_pos ⟨hmem, hk⟩]
  have hk' : get_type (reset_mem square_ball_state) 1 = some body_type_t.BRICK := by
    rw [get_type_reset_mem, get_type_append_lt _ _ _ hlt]
    exact hk
  rw [reset_game_eq]
  simp only
  refine ⟨_, rfl, brick_creator square_ball_state.ball 1, ?_, rfl, rfl, hrem, ?_⟩
  · rw [List.mem_map]
    refine ⟨1, ?_, rfl⟩
    rw [List.mem_filter]
    exact ⟨List.mem_append_left _ hmem, by simpa using hk'⟩
  · simp only [entry_valid, decide_eq_false_iff_not]
    intro h
    have h2 : body_is_removed (reset_mem square_ball_state) 1 = some false := h.2
    rw [hrem] at h2
    exact absurd h2 (by decide)

/-! ### Reset followed by the purge -/

theorem get_type_init_mem_append (sh : List vector_t) (q : Nat) :
    get_type (init_mem sh ++ BRICK_BODIES) q = get_type (init_mem [] ++ BRICK_BODIES) q := by
  cases q with
  | zero => rfl
  | succ q => rfl

theorem body_is_removed_init_mem (sh : List vector_t) (q : Nat) :
    body_is_removed (init_mem sh) q = body_is_removed (init_mem []) q := by
  cases q with
  | zero => rfl
  | succ q => rfl

set_option maxRecDepth 100000 in
/-- C5: on the state built by `emscripten_init` (36 bodies, 6 of them WALL), after
`reset_game` and the purge of the removed bodies the scene holds 38 bodies: 1 BALL, 28 BRICK,
1 GROUND and 8 WALL, two more than at the start, because `add_bricks` has added a second pair
of stones on top of the first. -/
theorem reset_game_adds_stones (sh : List vector_t) :
    scene_bodies (emscripten_init sh).scene = 36 ∧
    count_kind (emscripten_init sh) body_type_t.WALL = 6 ∧
    scene_bodies (scene_purge
      (reset_game (emscripten_init sh) 0 35 ⟨0, 1⟩ aux_t.STATE 1)).scene = 38 ∧
    count_kind (scene_purge
      (reset_game (emscripten_init sh) 0 35 ⟨0, 1⟩ aux_t.STATE 1)) body_type_t.BALL = 1 ∧
    count_kind (scene_purge
      (reset_game (emscripten_init sh) 0 35 ⟨0, 1⟩ aux_t.STATE 1)) body_type_t.BRICK = 28 ∧
    count_kind (scene_purge
      (reset_game (emscripten_init sh) 0 35 ⟨0, 1⟩ aux_t.STATE 1)) body_type_t.WALL = 8 ∧
    count_kind (scene_purge
      (reset_game (emscripten_init sh) 0 35 ⟨0, 1⟩ aux_t.STATE 1)) body_type_t.GROUND = 1 := by
  rw [reset_game_eq, emscripten_init_eq]
  simp only [scene_purge, count_kind, scene_bodies, get_type_reset_mem,
    body_is_removed_reset_mem, length_init_mem, get_type_init_mem_append sh,
    get_type_init_mem sh, body_is_removed_init_mem sh]
  decide

/-! ### What every event preserves -/

theorem game_inv_of_views (st st' : state_t)
    (hk : ∀ q, get_type st'.mem q = get_type st.mem q)
    (hr : ∀ q, body_is_removed st'.mem q = body_is_removed st.mem q)
    (hc : ∀ e ∈ st'.scene.force_creators, e ∈ st.scene.force_creators)
    (h : game_inv st) : game_inv st' := by
  constructor
  · intro q hq
    rw [hk]
    rw [hr] at hq
    exact h.1 q hq
  · intro e he hh
    rw [hk]
    exact h.2 e (hc e he) hh

theorem game_inv_on_key (key : key_t) (type : key_event_type_t) (held : ℚ) (st : state_t)
    (h : game_inv st) : game_inv (on_key key type held st) := by
  unfold on_key
  cases type with
  | KEY_PRESSED =>
    cases key with
    | LEFT_ARROW =>
      exact game_inv_of_views st _ (fun q => get_type_body_set_velocity _ _ _ q)
        (fun q => body_is_removed_body_set_velocity _ _ _ q) (fun _ he => he) h
    | RIGHT_ARROW =>
      exact game_inv_of_views st _ (fun q => get_type_body_set_velocity _ _ _ q)
        (fun q => body_is_removed_body_set_velocity _ _ _ q) (fun _ he => he) h
    | other => exact h
  | KEY_RELEASED =>
    exact game_inv_of_views st _ (fun q => get_type_body_set_velocity _ _ _ q)
      (fun q => body_is_removed_body_set_velocity _ _ _ q) (fun _ he => he) h

theorem get_type_user_wrap_edges (m : List body_t) (p q : Nat) :
    get_type (user_wrap_edges m p) q = get_type m q := by
  unfold user_wrap_edges
  split
  · split
    · exact get_type_body_set_centroid _ _ _ q
    · split
      · exact get_type_body_set_centroid _ _ _ q
      · rfl
  · rfl

theorem body_is_removed_user_wrap_edges (m : List body_t) (p q : Nat) :
    body_is_removed (user_wrap_edges m p) q = body_is_removed m q := by
  unfold user_wrap_edges
  split
  · split
    · exact body_is_removed_body_set_centroid _ _ _ q
    · split
      · exact body_is_removed_body_set_centroid _ _ _ q
      · rfl
  · rfl

theorem game_inv_reset_game (st : state_t) (b1 b2 : Nat) (axis : vector_t) (aux : aux_t)
    (fc : ℚ) (h : game_inv st) : game_inv (reset_game st b1 b2 axis aux fc) := by
  cases aux with
  | NULL => exact h
  | STATE =>
    rw [reset_game_eq]
    constructor
    · intro q hq
      simp only at hq ⊢
      rw [body_is_removed_reset_mem] at hq
      rw [get_type_reset_mem]
      by_cases hlt : q < st.mem.length
      · rw [if_pos hlt] at hq
        rw [get_type_append_lt _ _ _ hlt]
        by_cases hb : q ∈ st.scene.bodies ∧ get_type st.mem q = some body_type_t.BRICK
        · exact hb.2
        · rw [if_neg hb] at hq
          exact h.1 q hq
      · rw [if_neg hlt] at hq
        split at hq
        · exact absurd hq (by decide)
        · exact absurd hq (by decide)
    · intro e he hh
      simp only at he ⊢
      rcases List.mem_append.mp he with hold | hnew
      · have hk := h.2 e hold hh
        rw [get_type_reset_mem, get_type_append_lt _ _ _ (get_type_lt _ _ _ hk)]
        exact hk
      · rw [List.mem_map] at hnew
        obtain ⟨b, hb, hbe⟩ := hnew
        rw [List.mem_filter] at hb
        rw [← hbe]
        simpa using hb.2

theorem game_inv_run_handler (st : state_t) (e : collision_t) (axis : vector_t)
    (he : e ∈ st.scene.force_creators) (h : game_inv st) :
    game_inv (run_handler st e axis) := by
  unfold run_handler
  cases hh : e.handler with
  | physics_collision_handler =>
    exact game_inv_of_views st _
      (fun q => get_type_physics_collision_handler st.mem e.body1 e.body2 axis e.aux
        e.force_const q)
      (fun q => body_is_removed_physics_collision_handler st.mem e.body1 e.body2 axis e.aux
        e.force_const q)
      (fun _ he => he) h
  | breakout_collision_handler =>
    have hbrick := h.2 e he hh
    have hkind : ∀ q, get_type (breakout_collision_handler st.mem e.body1 e.body2 axis e.aux
        e.force_const) q = get_type st.mem q := by
      intro q
      unfold breakout_collision_handler
      rw [get_type_body_remove, get_type_physics_collision_handler]
    constructor
    · intro q hq
      simp only at hq ⊢
      rw [hkind]
      unfold breakout_collision_handler at hq
      rw [body_is_removed_body_remove, body_is_removed_physics_collision_handler] at hq
      by_cases hqe : q = e.body2
      · rw [hqe]
        exact hbrick
      · rw [if_neg hqe] at hq
        exact h.1 q hq
    · intro e' he' hh'
      simp only at he' ⊢
      rw [hkind]
      exact h.2 e' he' hh'
  | reset_game => exact game_inv_reset_game st _ _ _ _ _ h

theorem game_inv_fire (st : state_t) (i : Nat) (axis : vector_t) (h : game_inv st) :
    game_inv (fire st i axis) := by
  unfold fire
  split
  · rename_i e he
    split
    · exact game_inv_run_handler st e axis (List.getElem?_mem he) h
    · exact h
  · exact h

theorem game_inv_foldl_fire (collisions : List (Nat × vector_t)) (st : state_t)
    (h : game_inv st) : game_inv (collisions.foldl (fun s c => fire s c.1 c.2) st) := by
  induction collisions generalizing st with
  | nil => exact h
  | cons c rest ih =>
    rw [List.foldl_cons]
    exact ih _ (game_inv_fire st c.1 c.2 h)

theorem views_integrate (dt : ℚ) (l : List Nat) (m : List body_t) (q : Nat) :
    get_type (l.foldl (fun m body =>
        if body_is_removed m body = some false then mem_update m body (fun b => body_tick b dt)
        else m) m) q = get_type m q ∧
    body_is_removed (l.foldl (fun m body =>
        if body_is_removed m body = some false then mem_update m body (fun b => body_tick b dt)
        else m) m) q = body_is_removed m q := by
  induction l generalizing m with
  | nil => exact ⟨rfl, rfl⟩
  | cons a rest ih =>
    rw [List.foldl_cons]
    obtain ⟨h1, h2⟩ := ih
      (if body_is_removed m a = some false then mem_update m a (fun b => body_tick b dt) else m)
    rw [h1, h2]
    split
    · constructor
      · apply get_type_mem_update
        intro b
        rfl
      · apply body_is_removed_mem_update
        intro b
        rfl
    · exact ⟨rfl, rfl⟩

theorem game_inv_scene_integrate (st : state_t) (dt : ℚ) (h : game_inv st) :
    game_inv (scene_integrate st dt) := by
  constructor
  · intro q hq
    have hv := views_integrate dt st.scene.bodies st.mem q
    unfold scene_integrate at hq ⊢
    simp only at hq ⊢
    rw [hv.1]
    rw [hv.2] at hq
    exact h.1 q hq
  · intro e he hh
    have hv := views_integrate dt st.scene.bodies st.mem e.body2
    unfold scene_integrate at he ⊢
    simp only at he ⊢
    rw [hv.1]
    exact h.2 e he hh

theorem game_inv_scene_purge (st : state_t) (h : game_inv st) : game_inv (scene_purge st) := by
  constructor
  · intro q hq
    exact h.1 q hq
  · intro e he hh
    unfold scene_purge at he
    exact h.2 e (List.mem_filter.mp he).1 hh

theorem game_inv_scene_tick (st : state_t) (collisions : List (Nat × vector_t)) (dt : ℚ)
    (h : game_inv st) : game_inv (scene_tick st collisions dt) := by
  unfold scene_tick
  exact game_inv_scene_purge _ (game_inv_scene_integrate _ dt
    (game_inv_foldl_fire collisions st h))

theorem game_inv_step (st : state_t) (ev : event_t) (h : game_inv st) :
    game_inv (step st ev) := by
  cases ev with
  | frame collisions dt =>
    unfold step emscripten_main
    apply game_inv_scene_tick
    exact game_inv_of_views st _ (fun q => get_type_user_wrap_edges _ _ q)
      (fun q => body_is_removed_user_wrap_edges _ _ q) (fun _ he => he) h
  | key key type held => exact game_inv_on_key key type held st h

theorem game_inv_run (events : List event_t) (st : state_t) (h : game_inv st) :
    game_inv (run st events) := by
  unfold run
  induction events generalizing st with
  | nil => exact h
  | cons ev rest ih =>
    rw [List.foldl_cons]
    exact ih _ (game_inv_step st ev h)

set_option maxRecDepth 100000 in
theorem game_inv_emscripten_init (sh : List vector_t) : game_inv (emscripten_init sh) := by
  rw [emscripten_init_eq]
  constructor
  · intro q hq
    simp only [body_is_removed_init_mem sh] at hq
    have hall : ∀ q, q < 36 → body_is_removed (init_mem []) q = some false := by decide
    by_cases hlt : q < 36
    · rw [hall q hlt] at hq
      exact absurd hq (by decide)
    · have hnone : body_is_removed (init_mem []) q = none := by
        unfold body_is_removed
        rw [List.getElem?_eq_none (by rw [length_init_mem]; exact Nat.le_of_not_lt hlt)]
        rfl
      rw [hnone] at hq
      exact absurd hq (by decide)
  · intro e he hh
    simp only [get_type_init_mem sh] at he ⊢
    have hall : ∀ e ∈ INIT_CREATORS, e.handler = handler_t.breakout_collision_handler →
        get_type (init_mem []) e.body2 = some body_type_t.BRICK := by decide
    exact hall e he hh

set_option maxRecDepth 100000 in
/-- C9: every call of `add_bricks` allocates thirty bodies of infinite mass, un-removed, of
which exactly two are tagged WALL, the stones of row 1, column 7 and of row 2, column 2 (the
box of column `j`, row `i` is the `3 * j + i`-th allocated); and after any sequence of frames
and key events from `emscripten_init`, every body tagged WALL, the stones among them, is
un-removed, and every entry with `breakout_collision_handler` has a BRICK as its body2. -/
theorem stones_never_removed :
    (∀ st : state_t,
      (add_bricks st).mem = st.mem ++ BRICK_BODIES ∧
      (add_bricks st).scene.bodies = st.scene.bodies ++ List.range' st.mem.length 30 ∧
      (add_bricks st).scene.force_creators = st.scene.force_creators) ∧
    BRICK_BODIES.length = 30 ∧
    (∀ j, j < 10 → ∀ i, i < 3 →
      (BRICK_BODIES[3 * j + i]?).map (fun b => (b.info, b.mass, b.removed)) =
        some (if (i = 1 ∧ j = 7) ∨ (i = 2 ∧ j = 2) then body_type_t.WALL else body_type_t.BRICK,
              mass_t.INFINITY, false)) ∧
    (BRICK_BODIES.filter (fun b => b.info = body_type_t.WALL)).length = 2 ∧
    (∀ (sh : List vector_t) (events : List event_t),
      (∀ q, get_type (run (emscripten_init sh) events).mem q = some body_type_t.WALL →
        body_is_removed (run (emscripten_init sh) events).mem q = some false) ∧
      (∀ e ∈ (run (emscripten_init sh) events).scene.force_creators,
        e.handler = handler_t.breakout_collision_handler →
        get_type (run (emscripten_init sh) events).mem e.body2 = some body_type_t.BRICK)) := by
  refine ⟨?_, length_BRICK_BODIES, by decide, by decide, ?_⟩
  · intro st
    rw [add_bricks_eq]
    simp only [push_all, length_BRICK_BODIES, and_self]
  · intro sh events
    have hinv := game_inv_run events (emscripten_init sh) (game_inv_emscripten_init sh)
    refine ⟨?_, hinv.2⟩
    intro q hq
    obtain ⟨r, hr⟩ := body_is_removed_lt _ q (get_type_lt _ _ _ hq)
    cases r with
    | false => exact hr
    | true =>
      have hb := hinv.1 q hr
      rw [hq] at hb
      exact absurd hb (by decide)

/-- C6 at a concrete input: the box at (10, 20) of width 30 and height 40, clicked at
(15, 25). -/
theorem click_in_button_iff_witness :
    sums_in_range (⟨10, 20, 30, 40⟩ : SDL_Rect) ∧
    click_in_button ⟨asset_type_t.ASSET_BUTTON, ⟨10, 20, 30, 40⟩⟩ 15 25 = true :=
  have h : sums_in_range (⟨10, 20, 30, 40⟩ : SDL_Rect) := by
    unfold sums_in_range INT_MIN INT_MAX
    decide
  ⟨h, (click_in_button_iff ⟨asset_type_t.ASSET_BUTTON, ⟨10, 20, 30, 40⟩⟩ 15 25 h).1.mpr
    (by norm_num)⟩

/-! ### The ball across events -/

theorem ball_inv_of_views (st st' : state_t)
    (hk : ∀ q, get_type st'.mem q = get_type st.mem q)
    (hb : st'.ball = st.ball)
    (hc : ∀ e ∈ st'.scene.force_creators, e ∈ st.scene.force_creators)
    (h : ball_inv st) : ball_inv st' := by
  constructor
  · rw [hk, hb]
    exact h.1
  · intro e he
    rw [hb]
    exact h.2 e (hc e he)

theorem ball_inv_on_key (key : key_t) (type : key_event_type_t) (held : ℚ) (st : state_t)
    (h : ball_inv st) : ball_inv (on_key key type held st) := by
  unfold on_key
  cases type with
  | KEY_PRESSED =>
    cases key with
    | LEFT_ARROW =>
      exact ball_inv_of_views st _ (fun q => get_type_body_set_velocity _ _ _ q) rfl
        (fun _ he => he) h
    | RIGHT_ARROW =>
      exact ball_inv_of_views st _ (fun q => get_type_body_set_velocity _ _ _ q) rfl
        (fun _ he => he) h
    | other => exact h
  | KEY_RELEASED =>
    exact ball_inv_of_views st _ (fun q => get_type_body_set_velocity _ _ _ q) rfl
      (fun _ he => he) h

theorem ball_inv_reset_game (st : state_t) (b1 b2 : Nat) (axis : vector_t) (aux : aux_t)
    (fc : ℚ) (h : ball_inv st) : ball_inv (reset_game st b1 b2 axis aux fc) := by
  cases aux with
  | NULL => exact h
  | STATE =>
    rw [reset_game_eq]
    have hball : get_type (reset_mem st) st.ball = some body_type_t.BALL := by
      rw [get_type_reset_mem, get_type_append_lt _ _ _ (get_type_lt _ _ _ h.1)]
      exact h.1
    constructor
    · exact hball
    · intro e he
      simp only at he ⊢
      rcases List.mem_append.mp he with hold | hnew
      · exact h.2 e hold
      · rw [List.mem_map] at hnew
        obtain ⟨b, hb, hbe⟩ := hnew
        rw [List.mem_filter] at hb
        have hk : get_type (reset_mem st) b = some body_type_t.BRICK := by simpa using hb.2
        rw [← hbe]
        refine ⟨rfl, ?_⟩
        intro hcon
        have hcon' : b = st.ball := hcon
        rw [hcon', hball] at hk
        exact absurd hk (by decide)

theorem ball_inv_run_handler (st : state_t) (e : collision_t) (axis : vector_t)
    (h : ball_inv st) : ball_inv (run_handler st e axis) := by
  unfold run_handler
  cases e.handler with
  | physics_collision_handler =>
    exact ball_inv_of_views st _
      (fun q => get_type_physics_collision_handler st.mem e.body1 e.body2 axis e.aux
        e.force_const q)
      rfl (fun _ he => he) h
  | breakout_collision_handler =>
    have hkind : ∀ q, get_type (breakout_collision_handler st.mem e.body1 e.body2 axis e.aux
        e.force_const) q = get_type st.mem q := by
      intro q
      unfold breakout_collision_handler
      rw [get_type_body_remove, get_type_physics_collision_handler]
    exact ball_inv_of_views st
      { st with mem := (breakout_collision_handler st.mem e.body1 e.body2 axis e.aux
          e.force_const) }
      hkind rfl (fun _ he => he) h
  | reset_game => exact ball_inv_reset_game st _ _ _ _ _ h

theorem ball_inv_fire (st : state_t) (i : Nat) (axis : vector_t) (h : ball_inv st) :
    ball_inv (fire st i axis) := by
  unfold fire
  split
  · rename_i e he
    split
    · exact ball_inv_run_handler st e axis h
    · exact h
  · exact h

theorem ball_inv_foldl_fire (collisions : List (Nat × vector_t)) (st : state_t)
    (h : ball_inv st) : ball_inv (collisions.foldl (fun s c => fire s c.1 c.2) st) := by
  induction collisions generalizing st with
  | nil => exact h
  | cons c rest ih =>
    rw [List.foldl_cons]
    exact ih _ (ball_inv_fire st c.1 c.2 h)

theorem ball_inv_scene_integrate (st : state_t) (dt : ℚ) (h : ball_inv st) :
    ball_inv (scene_integrate st dt) := by
  constructor
  · have hv := views_integrate dt st.scene.bodies st.mem st.ball
    unfold scene_integrate
    simp only
    rw [hv.1]
    exact h.1
  · intro e he
    exact h.2 e he

theorem ball_inv_scene_purge (st : state_t) (h : ball_inv st) : ball_inv (scene_purge st) := by
  constructor
  · exact h.1
  · intro e he
    unfold scene_purge at he
    exact h.2 e (List.mem_filter.mp he).1

theorem ball_inv_scene_tick (st : state_t) (collisions : List (Nat × vector_t)) (dt : ℚ)
    (h : ball_inv st) : ball_inv (scene_tick st collisions dt) := by
  unfold scene_tick
  exact ball_inv_scene_purge _ (ball_inv_scene_integrate _ dt
    (ball_inv_foldl_fire collisions st h))

theorem ball_inv_step (st : state_t) (ev : event_t) (h : ball_inv st) :
    ball_inv (step st ev) := by
  cases ev with
  | frame collisions dt =>
    unfold step emscripten_main
    apply ball_inv_scene_tick
    exact ball_inv_of_views st _ (fun q => get_type_user_wrap_edges _ _ q) rfl
      (fun _ he => he) h
  | key key type held => exact ball_inv_on_key key type held st h

theorem ball_inv_run (events : List event_t) (st : state_t) (h : ball_inv st) :
    ball_inv (run st events) := by
  unfold run
  induction events generalizing st with
  | nil => exact h
  | cons ev rest ih =>
    rw [List.foldl_cons]
    exact ih _ (ball_inv_step st ev h)

set_option maxRecDepth 100000 in
theorem ball_inv_emscripten_init (sh : List vector_t) : ball_inv (emscripten_init sh) := by
  rw [emscripten_init_eq]
  constructor
  · rfl
  · have hall : ∀ e ∈ INIT_CREATORS, e.body1 = 0 ∧ e.body2 ≠ 0 := by decide
    exact hall

theorem ball_live_of_inv (st : state_t) (hg : game_inv st) (hb : ball_inv st) :
    st.ball < st.mem.length ∧ body_is_removed st.mem st.ball = some false := by
  have hlt := get_type_lt _ _ _ hb.1
  refine ⟨hlt, ?_⟩
  obtain ⟨r, hr⟩ := body_is_removed_lt _ _ hlt
  cases r with
  | false => exact hr
  | true =>
    have hk := hg.1 _ hr
    rw [hb.1] at hk
    exact absurd hk (by decide)

/-- C1: `breakout_collision_handler` is the physics handler followed by `body_remove(body2)`.
For every memory, body1, body2 (a valid pointer), axis, aux and force constant: every
velocity is the one the physics handler alone leaves, body2 differs from what the physics
handler leaves only in its removal flag, which is set in every case, and body1, the other
body of the pair, keeps the removal flag it had before the call. In every state the game
reaches from `emscripten_init`, each entry with this handler has the ball as body1 and a
valid, different body as body2. -/
theorem breakout_collision_handler_spec :
    (∀ (mem : List body_t) (body1 body2 : Nat) (axis : vector_t) (aux : aux_t)
        (force_const : ℚ), body2 < mem.length →
      breakout_collision_handler mem body1 body2 axis aux force_const =
        body_remove (physics_collision_handler mem body1 body2 axis aux force_const) body2 ∧
      (∀ q,
        body_get_velocity (breakout_collision_handler mem body1 body2 axis aux force_const) q =
          body_get_velocity (physics_collision_handler mem body1 body2 axis aux force_const) q) ∧
      (∀ q, q ≠ body2 →
        (breakout_collision_handler mem body1 body2 axis aux force_const)[q]? =
          (physics_collision_handler mem body1 body2 axis aux force_const)[q]?) ∧
      (breakout_collision_handler mem body1 body2 axis aux force_const)[body2]? =
        ((physics_collision_handler mem body1 body2 axis aux force_const)[body2]?).map
          (fun b => { b with removed := true }) ∧
      body_is_removed (breakout_collision_handler mem body1 body2 axis aux force_const) body2 =
        some true ∧
      (body1 ≠ body2 →
        body_is_removed (breakout_collision_handler mem body1 body2 axis aux force_const) body1 =
          body_is_removed mem body1)) ∧
    (∀ (sh : List vector_t) (events : List event_t),
      ∀ e ∈ (run (emscripten_init sh) events).scene.force_creators,
        e.handler = handler_t.breakout_collision_handler →
        e.body1 = (run (emscripten_init sh) events).ball ∧
        e.body2 < (run (emscripten_init sh) events).mem.length ∧
        e.body1 ≠ e.body2) := by
  refine ⟨fun mem body1 body2 axis aux force_const h2 =>
    breakout_collision_handler_effect mem body1 body2 axis aux force_const h2, ?_⟩
  intro sh events e he hh
  have hg := game_inv_run events (emscripten_init sh) (game_inv_emscripten_init sh)
  have hb := ball_inv_run events (emscripten_init sh) (ball_inv_emscripten_init sh)
  obtain ⟨h1, h2⟩ := hb.2 e he
  refine ⟨h1, get_type_lt _ _ _ (hg.2 e he hh), ?_⟩
  rw [h1]
  exact fun hcon => h2 hcon.symm

/-- C1 at a concrete input: the ball of `ball_brick_mem` hits its brick. -/
theorem breakout_collision_handler_spec_witness :
    1 < ball_brick_mem.length ∧
    body_is_removed (breakout_collision_handler ball_brick_mem 0 1 ⟨0, 1⟩ aux_t.NULL 1) 1 =
      some true ∧
    ((0 : Nat) ≠ 1 →
      body_is_removed (breakout_collision_handler ball_brick_mem 0 1 ⟨0, 1⟩ aux_t.NULL 1) 0 =
        body_is_removed ball_brick_mem 0) :=
  ⟨by decide,
   (breakout_collision_handler_spec.1 ball_brick_mem 0 1 ⟨0, 1⟩ aux_t.NULL 1
     (by decide)).2.2.2.2⟩

/-- C4: for every state whose ball pointer is valid, whatever the ball's position and
velocity before, when `reset_game` returns the ball's velocity is
`BALL_INIT_VEL = (-500, 400)` and its centroid `BALL_INIT_POS = (500, 70)` (`body_reset`
alters neither), and a ball whose kind is not BRICK keeps its removal flag. In every state the
game reaches from `emscripten_init` the ball pointer is valid, of kind BALL and un-removed,
and the ball is not flagged removed when `reset_game` returns. -/
theorem reset_game_ball :
    (∀ (st : state_t) (b1 b2 : Nat) (axis : vector_t) (fc : ℚ), st.ball < st.mem.length →
      (reset_game st b1 b2 axis aux_t.STATE fc).ball = st.ball ∧
      body_get_velocity (reset_game st b1 b2 axis aux_t.STATE fc).mem st.ball =
        some BALL_INIT_VEL ∧
      body_get_centroid (reset_game st b1 b2 axis aux_t.STATE fc).mem st.ball =
        some BALL_INIT_POS ∧
      BALL_INIT_VEL = ⟨-500, 400⟩ ∧ BALL_INIT_POS = ⟨500, 70⟩ ∧
      (∀ (m : List body_t) (p q : Nat),
        body_get_velocity (body_reset m p) q = body_get_velocity m q ∧
        body_get_centroid (body_reset m p) q = body_get_centroid m q) ∧
      (get_type st.mem st.ball ≠ some body_type_t.BRICK →
        body_is_removed (reset_game st b1 b2 axis aux_t.STATE fc).mem st.ball =
          body_is_removed st.mem st.ball)) ∧
    (∀ (sh : List vector_t) (events : List event_t) (b1 b2 : Nat) (axis : vector_t) (fc : ℚ),
      (run (emscripten_init sh) events).ball < (run (emscripten_init sh) events).mem.length ∧
      get_type (run (emscripten_init sh) events).mem (run (emscripten_init sh) events).ball =
        some body_type_t.BALL ∧
      body_is_removed (run (emscripten_init sh) events).mem
        (run (emscripten_init sh) events).ball = some false ∧
      body_get_velocity (reset_game (run (emscripten_init sh) events) b1 b2 axis
        aux_t.STATE fc).mem (run (emscripten_init sh) events).ball = some BALL_INIT_VEL ∧
      body_get_centroid (reset_game (run (emscripten_init sh) events) b1 b2 axis
        aux_t.STATE fc).mem (run (emscripten_init sh) events).ball = some BALL_INIT_POS ∧
      body_is_removed (reset_game (run (emscripten_init sh) events) b1 b2 axis
        aux_t.STATE fc).mem (run (emscripten_init sh) events).ball = some false) := by
  refine ⟨fun st b1 b2 axis fc hball => reset_game_ball_effect st b1 b2 axis fc hball, ?_⟩
  intro sh events b1 b2 axis fc
  have hg := game_inv_run events (emscripten_init sh) (game_inv_emscripten_init sh)
  have hb := ball_inv_run events (emscripten_init sh) (ball_inv_emscripten_init sh)
  obtain ⟨hlt, hlive⟩ := ball_live_of_inv _ hg hb
  have heff := reset_game_ball_effect (run (emscripten_init sh) events) b1 b2 axis fc hlt
  have hkind : get_type (run (emscripten_init sh) events).mem
      (run (emscripten_init sh) events).ball ≠ some body_type_t.BRICK := by
    rw [hb.1]
    decide
  refine ⟨hlt, hb.1, hlive, heff.2.1, heff.2.2.1, ?_⟩
  rw [heff.2.2.2.2.2.2 hkind]
  exact hlive

/-- C4 at a concrete input: the state built by `emscripten_init` with a square ball. -/
theorem reset_game_ball_witness :
    square_ball_state.ball < square_ball_state.mem.length ∧
    body_get_velocity
        (reset_game square_ball_state 0 35 ⟨0, 1⟩ aux_t.STATE 1).mem square_ball_state.ball =
      some BALL_INIT_VEL ∧
    body_get_centroid
        (reset_game square_ball_state 0 35 ⟨0, 1⟩ aux_t.STATE 1).mem square_ball_state.ball =
      some BALL_INIT_POS :=
  have h : square_ball_state.ball < square_ball_state.mem.length := by
    rw [square_ball_state_eq]
    show 0 < (init_mem _).length
    rw [length_init_mem]
    decide
  ⟨h, (reset_game_ball.1 square_ball_state 0 35 ⟨0, 1⟩ 1 h).2.1,
    (reset_game_ball.1 square_ball_state 0 35 ⟨0, 1⟩ 1 h).2.2.1⟩

end Breakout
